import Mathlib

/-!
Verification of the video-generation job execution subsystem of the
creative-studio backend: the Pub/Sub remote executor entrypoint
(`backend/main.py`), the execution-backend selection and remote publisher
(`backend/src/videos/veo_executor_service.py`), the video controller
(`backend/src/videos/veo_controller.py`) and the image generation service
(`backend/src/models/base/base_image_service.py`).

Python strings are modelled as lists of Unicode code points (`List Nat`),
byte strings as lists of byte values (`List Nat`, each `< 256`).  Python
exceptions are modelled by the `PyExc` type, carrying the exception class
relevant to the `try/except` routing in the source.
-/

set_option maxHeartbeats 1600000

namespace CreativeStudio

instance {ε α : Type} [DecidableEq ε] [DecidableEq α] : DecidableEq (Except ε α) :=
  fun x y =>
    match x, y with
    | .ok a, .ok b =>
      match decEq a b with
      | .isTrue h => .isTrue (congrArg Except.ok h)
      | .isFalse h => .isFalse (fun hc => h (Except.ok.inj hc))
    | .ok _, .error _ => .isFalse Except.noConfusion
    | .error _, .ok _ => .isFalse Except.noConfusion
    | .error a, .error b =>
      match decEq a b with
      | .isTrue h => .isTrue (congrArg Except.error h)
      | .isFalse h => .isFalse (fun hc => h (Except.error.inj hc))

/-- Code points of a Lean string literal, used to write concrete Python
strings in statements. -/
def cp (s : String) : List Nat := s.toList.map Char.toNat

/-- A Unicode scalar value that a Python `str` can UTF-8-encode:
below 0x110000 and not a surrogate. -/
def ValidCp (c : Nat) : Prop := c < 0x110000 ∧ ¬ (0xD800 ≤ c ∧ c < 0xE000)

instance (c : Nat) : Decidable (ValidCp c) := by unfold ValidCp; infer_instance

/-- Every code point of the string is UTF-8-encodable. -/
def ValidStr (s : List Nat) : Prop := ∀ c ∈ s, ValidCp c

instance (s : List Nat) : Decidable (ValidStr s) := by
  unfold ValidStr; exact List.decidableBAll _ s

/-- Model of the Python exception classes that the sources distinguish in
their `try/except` clauses. -/
inductive PyExc where
  /-- `json.JSONDecodeError`, raised by `json.loads`. -/
  | jsonDecodeError
  /-- `UnicodeDecodeError`, raised by `bytes.decode("utf-8")`. -/
  | unicodeDecodeError
  /-- `binascii.Error`, raised by `base64.b64decode` on invalid base64. -/
  | binasciiError
  /-- `ValueError` (e.g. `base64.b64decode` on a non-ASCII `str`). -/
  | valueError
  /-- `pydantic_core.ValidationError`, raised by `model_validate`. -/
  | validationError
  /-- `google.api_core.exceptions.NotFound`. -/
  | notFound
  /-- `google.api_core.exceptions.GoogleAPICallError`. -/
  | googleAPICallError
  /-- `IndexError`, raised by out-of-range list indexing. -/
  | indexError
  /-- A generic `Exception` with its message. -/
  | generic (msg : List Nat)
  /-- `fastapi.HTTPException` with a status code and a detail string. -/
  | httpException (code : Nat) (detail : List Nat)
deriving DecidableEq, Repr

/-- `type(e).__name__` for the modelled exception classes. -/
def PyExc.className : PyExc → List Nat
  | .jsonDecodeError => cp "JSONDecodeError"
  | .unicodeDecodeError => cp "UnicodeDecodeError"
  | .binasciiError => cp "Error"
  | .valueError => cp "ValueError"
  | .validationError => cp "ValidationError"
  | .notFound => cp "NotFound"
  | .googleAPICallError => cp "GoogleAPICallError"
  | .indexError => cp "IndexError"
  | .generic _ => cp "Exception"
  | .httpException _ _ => cp "HTTPException"

/-- `str(e)` for the modelled exception classes (only the shape matters for
the theorems; concrete library wording is not reproduced). -/
def PyExc.str : PyExc → List Nat
  | .generic msg => msg
  | .httpException _ detail => detail
  | e => e.className

/-! ## base64 (`base64.b64encode` / `base64.b64decode`)

`b64decodePy` models Python's `base64.b64decode` applied to a `str`
argument with `validate=False` (the default): the input must be ASCII
(otherwise `ValueError`), characters outside the alphabet and `=` are
discarded, and the remaining characters are decoded in groups of four with
`=` padding; a leftover group raises `binascii.Error`. -/

/-- Value of the `i`-th character of the standard base64 alphabet. -/
def b64Char (n : Nat) : Nat :=
  if n < 26 then 65 + n
  else if n < 52 then 97 + (n - 26)
  else if n < 62 then 48 + (n - 52)
  else if n = 62 then 43
  else 47

/-- Inverse of `b64Char` on the alphabet. -/
def b64Val (c : Nat) : Option Nat :=
  if 65 ≤ c ∧ c ≤ 90 then some (c - 65)
  else if 97 ≤ c ∧ c ≤ 122 then some (26 + (c - 97))
  else if 48 ≤ c ∧ c ≤ 57 then some (52 + (c - 48))
  else if c = 43 then some 62
  else if c = 47 then some 63
  else none

/-- Whether a character belongs to the base64 alphabet. -/
def isB64Alpha (c : Nat) : Bool := (b64Val c).isSome

/-- `base64.b64encode` on a byte string (result as ASCII code points). -/
def b64encode : List Nat → List Nat
  | [] => []
  | [a] => [b64Char (a / 4), b64Char (a % 4 * 16), 61, 61]
  | [a, b] => [b64Char (a / 4), b64Char (a % 4 * 16 + b / 16), b64Char (b % 16 * 4), 61]
  | a :: b :: c :: rest =>
      b64Char (a / 4) :: b64Char (a % 4 * 16 + b / 16) ::
        b64Char (b % 16 * 4 + c / 64) :: b64Char (c % 64) :: b64encode rest

/-- Decoding of the already-filtered character stream (alphabet and `=`
only), in groups of four: a full data quad yields three bytes, a quad with
one or two trailing `=` yields two bytes or one, anything else (including
a leftover short group) raises `binascii.Error`. -/
def b64decodeCore : List Nat → Except PyExc (List Nat)
  | [] => .ok []
  | a :: b :: c :: d :: rest =>
    match b64Val a, b64Val b with
    | some va, some vb =>
      if c = 61 then
        if d = 61 then
          (b64decodeCore rest).map (fun bs => (va * 4 + vb / 16) :: bs)
        else .error .binasciiError
      else
        match b64Val c with
        | some vc =>
          if d = 61 then
            (b64decodeCore rest).map
              (fun bs => (va * 4 + vb / 16) :: (vb % 16 * 16 + vc / 4) :: bs)
          else
            match b64Val d with
            | some vd =>
              (b64decodeCore rest).map
                (fun bs => (va * 4 + vb / 16) :: (vb % 16 * 16 + vc / 4) ::
                  (vc % 4 * 64 + vd) :: bs)
            | none => .error .binasciiError
        | none => .error .binasciiError
    | _, _ => .error .binasciiError
  | _ => .error .binasciiError

/-- `base64.b64decode` on a `str` argument. -/
def b64decodePy (s : List Nat) : Except PyExc (List Nat) :=
  if s.any (fun c => 128 ≤ c) then .error .valueError
  else b64decodeCore (s.filter (fun c => isB64Alpha c || c == 61))

/-! ## UTF-8 (`str.encode("utf-8")` / `bytes.decode("utf-8")`) -/

/-- UTF-8 encoding of one code point (meaningful for `ValidCp` inputs). -/
def utf8EncodeChar (c : Nat) : List Nat :=
  if c < 0x80 then [c]
  else if c < 0x800 then [0xC0 + c / 64, 0x80 + c % 64]
  else if c < 0x10000 then
    [0xE0 + c / 4096, 0x80 + c / 64 % 64, 0x80 + c % 64]
  else [0xF0 + c / 262144, 0x80 + c / 4096 % 64, 0x80 + c / 64 % 64, 0x80 + c % 64]

/-- `str.encode("utf-8")`. -/
def utf8Encode (s : List Nat) : List Nat := s.flatMap utf8EncodeChar

/-- Whether a byte is a UTF-8 continuation byte. -/
def isCont (b : Nat) : Bool := 0x80 ≤ b ∧ b < 0xC0

/-- Decode one UTF-8-encoded code point from the front of a byte string:
strict decoding, rejecting truncated sequences, stray continuation bytes,
overlong forms and surrogates. -/
def utf8DecodeOne : List Nat → Except PyExc (Nat × List Nat)
  | [] => .error .unicodeDecodeError
  | b :: rest =>
    if b < 0x80 then .ok (b, rest)
    else if b < 0xC2 then .error .unicodeDecodeError
    else if b < 0xE0 then
      match rest with
      | b2 :: rest2 =>
        if isCont b2 then .ok ((b - 0xC0) * 64 + (b2 - 0x80), rest2)
        else .error .unicodeDecodeError
      | [] => .error .unicodeDecodeError
    else if b < 0xF0 then
      match rest with
      | b2 :: b3 :: rest2 =>
        if isCont b2 && isCont b3 then
          let c := (b - 0xE0) * 4096 + (b2 - 0x80) * 64 + (b3 - 0x80)
          if 0x800 ≤ c ∧ ¬ (0xD800 ≤ c ∧ c < 0xE000) then .ok (c, rest2)
          else .error .unicodeDecodeError
        else .error .unicodeDecodeError
      | _ => .error .unicodeDecodeError
    else if b < 0xF5 then
      match rest with
      | b2 :: b3 :: b4 :: rest2 =>
        if isCont b2 && isCont b3 && isCont b4 then
          let c := (b - 0xF0) * 262144 + (b2 - 0x80) * 4096 +
            (b3 - 0x80) * 64 + (b4 - 0x80)
          if 0x10000 ≤ c ∧ c < 0x110000 then .ok (c, rest2)
          else .error .unicodeDecodeError
        else .error .unicodeDecodeError
      | _ => .error .unicodeDecodeError
    else .error .unicodeDecodeError

/-- Fueled decoding loop: one code point per step (each step consumes at
least one byte, so fuel equal to the byte length never runs out). -/
def utf8DecodeAux : Nat → List Nat → Except PyExc (List Nat)
  | _, [] => .ok []
  | 0, _ :: _ => .error .unicodeDecodeError
  | fuel + 1, b :: rest =>
    match utf8DecodeOne (b :: rest) with
    | .ok (c, rest2) => (utf8DecodeAux fuel rest2).map (fun s => c :: s)
    | .error e => .error e

/-- `bytes.decode("utf-8")`. -/
def utf8Decode (bs : List Nat) : Except PyExc (List Nat) :=
  utf8DecodeAux bs.length bs

/-! ## JSON (`json.loads` / pydantic `model_dump_json`)

`PyJson` models the Python values `json.loads` produces (with integer
numbers only; the job envelope's payload contains only strings, integers
and objects). -/

inductive PyJson where
  | str (s : List Nat)
  | num (n : Int)
  | bool (b : Bool)
  | null
  | arr (xs : List PyJson)
  | obj (kvs : List (List Nat × PyJson))
deriving Repr

/-- Lowercase hex digit of a value `< 16`. -/
def hexDigit (n : Nat) : Nat := if n < 10 then 48 + n else 97 + (n - 10)

/-- Value of a hex digit character. -/
def hexVal (c : Nat) : Option Nat :=
  if 48 ≤ c ∧ c ≤ 57 then some (c - 48)
  else if 97 ≤ c ∧ c ≤ 102 then some (10 + (c - 97))
  else if 65 ≤ c ∧ c ≤ 70 then some (10 + (c - 65))
  else none

/-- JSON escaping of one string character as performed by pydantic's
`model_dump_json` (serde_json): `"` and `\` are backslash-escaped, the
named control escapes are used where they exist, the remaining control
characters become `\u00XX`, and all other characters are emitted raw. -/
def jsonEscapeChar (c : Nat) : List Nat :=
  if c = 34 then [92, 34]
  else if c = 92 then [92, 92]
  else if c = 8 then [92, 98]
  else if c = 9 then [92, 116]
  else if c = 10 then [92, 110]
  else if c = 12 then [92, 102]
  else if c = 13 then [92, 114]
  else if c < 32 then [92, 117, 48, 48, hexDigit (c / 16), hexDigit (c % 16)]
  else [c]

/-- JSON escaping of a string body. -/
def jsonEscape (s : List Nat) : List Nat := s.flatMap jsonEscapeChar

/-- A JSON string literal (quotes included). -/
def jsonStr (s : List Nat) : List Nat := 34 :: jsonEscape s ++ [34]

/-- Decimal digit characters of a natural number (fueled so that it is
structurally recursive; `natDigits` supplies sufficient fuel). -/
def natDigitsAux : Nat → Nat → List Nat
  | 0, _ => []
  | fuel + 1, n =>
    if n < 10 then [48 + n]
    else natDigitsAux fuel (n / 10) ++ [48 + n % 10]

/-- Decimal digit characters of a natural number. -/
def natDigits (n : Nat) : List Nat := natDigitsAux (n + 1) n

/-- Decimal rendering of an integer, as emitted for a JSON number. -/
def printInt (n : Int) : List Nat :=
  if n < 0 then 45 :: natDigits n.natAbs else natDigits n.natAbs

/-- Whether a character is a decimal digit. -/
def isDigit (c : Nat) : Bool := 48 ≤ c ∧ c ≤ 57

/-- Drop JSON whitespace. -/
def skipWs : List Nat → List Nat
  | c :: rest =>
    if c = 32 ∨ c = 9 ∨ c = 10 ∨ c = 13 then skipWs rest else c :: rest
  | [] => []

/-- Parse the body of a JSON string literal (the opening quote already
consumed), handling the escape sequences; returns the decoded string and
the input following the closing quote. -/
def parseStringBody : List Nat → Option (List Nat × List Nat)
  | [] => none
  | c :: rest =>
    if c = 34 then some ([], rest)
    else if c = 92 then
      match rest with
      | [] => none
      | e :: rest1 =>
        if e = 34 then (parseStringBody rest1).map (fun (s, r) => (34 :: s, r))
        else if e = 92 then (parseStringBody rest1).map (fun (s, r) => (92 :: s, r))
        else if e = 47 then (parseStringBody rest1).map (fun (s, r) => (47 :: s, r))
        else if e = 98 then (parseStringBody rest1).map (fun (s, r) => (8 :: s, r))
        else if e = 102 then (parseStringBody rest1).map (fun (s, r) => (12 :: s, r))
        else if e = 110 then (parseStringBody rest1).map (fun (s, r) => (10 :: s, r))
        else if e = 114 then (parseStringBody rest1).map (fun (s, r) => (13 :: s, r))
        else if e = 116 then (parseStringBody rest1).map (fun (s, r) => (9 :: s, r))
        else if e = 117 then
          match rest1 with
          | h1 :: h2 :: h3 :: h4 :: rest2 =>
            match hexVal h1, hexVal h2, hexVal h3, hexVal h4 with
            | some v1, some v2, some v3, some v4 =>
              (parseStringBody rest2).map
                (fun (s, r) => ((v1 * 4096 + v2 * 256 + v3 * 16 + v4) :: s, r))
            | _, _, _, _ => none
          | _ => none
        else none
    else (parseStringBody rest).map (fun (s, r) => (c :: s, r))

/-- Parse a run of decimal digits, accumulating their value; at least one
digit is required (`none` otherwise). -/
def parseDigits (acc : Nat) (seen : Bool) : List Nat → Option (Nat × List Nat)
  | c :: rest =>
    if isDigit c then parseDigits (acc * 10 + (c - 48)) true rest
    else if seen then some (acc, c :: rest) else none
  | [] => if seen then some (acc, []) else none

/-- Parse a JSON integer (optional leading minus). -/
def parseNumber (inp : List Nat) : Option (Int × List Nat) :=
  match inp with
  | c :: rest =>
    if c = 45 then (parseDigits 0 false rest).map (fun (n, r) => (-(n : Int), r))
    else (parseDigits 0 false inp).map (fun (n, r) => ((n : Int), r))
  | [] => none

mutual

/-- Recursive-descent parser for a JSON value (fueled; every recursive
step through a container decrements the fuel, `jsonLoads` supplies fuel
exceeding any possible nesting of its input). -/
def parseValue : Nat → List Nat → Option (PyJson × List Nat)
  | 0, _ => none
  | fuel + 1, inp =>
    match skipWs inp with
    | [] => none
    | c :: rest =>
      if c = 34 then (parseStringBody rest).map (fun (s, r) => (.str s, r))
      else if c = 123 then
        match skipWs rest with
        | [] => none
        | h :: t =>
          if h = 125 then some (.obj [], t)
          else (parseMembers fuel (h :: t)).map (fun (ms, r) => (.obj ms, r))
      else if c = 91 then
        match skipWs rest with
        | [] => none
        | h :: t =>
          if h = 93 then some (.arr [], t)
          else (parseElements fuel (h :: t)).map (fun (xs, r) => (.arr xs, r))
      else if c = 116 then
        match rest with
        | 114 :: 117 :: 101 :: r2 => some (.bool true, r2)
        | _ => none
      else if c = 102 then
        match rest with
        | 97 :: 108 :: 115 :: 101 :: r2 => some (.bool false, r2)
        | _ => none
      else if c = 110 then
        match rest with
        | 117 :: 108 :: 108 :: r2 => some (.null, r2)
        | _ => none
      else if c = 45 ∨ isDigit c then
        (parseNumber (c :: rest)).map (fun (n, r) => (.num n, r))
      else none

/-- Parse the members of a JSON object (after `{`, at least one member). -/
def parseMembers : Nat → List Nat → Option (List (List Nat × PyJson) × List Nat)
  | 0, _ => none
  | fuel + 1, inp =>
    match skipWs inp with
    | [] => none
    | c :: rest =>
      if c = 34 then
        match parseStringBody rest with
        | some (key, r1) =>
          match skipWs r1 with
          | [] => none
          | c2 :: r2 =>
            if c2 = 58 then
              match parseValue fuel r2 with
              | some (v, r3) =>
                match skipWs r3 with
                | [] => none
                | c3 :: r4 =>
                  if c3 = 44 then
                    (parseMembers fuel r4).map (fun (ms, r) => ((key, v) :: ms, r))
                  else if c3 = 125 then some ([(key, v)], r4)
                  else none
              | none => none
            else none
        | none => none
      else none

/-- Parse the elements of a JSON array (after `[`, at least one element). -/
def parseElements : Nat → List Nat → Option (List PyJson × List Nat)
  | 0, _ => none
  | fuel + 1, inp =>
    match parseValue fuel inp with
    | some (v, r1) =>
      match skipWs r1 with
      | [] => none
      | c :: r2 =>
        if c = 44 then (parseElements fuel r2).map (fun (xs, r) => (v :: xs, r))
        else if c = 93 then some ([v], r2)
        else none
    | none => none

end

/-- `json.loads` on a Python string: parse one JSON value and require that
only whitespace follows; any failure raises `json.JSONDecodeError`. -/
def jsonLoads (s : List Nat) : Except PyExc PyJson :=
  match parseValue (s.length + 1) s with
  | some (v, rest) => if skipWs rest = [] then .ok v else .error .jsonDecodeError
  | none => .error .jsonDecodeError

/-! ## The job envelope DTOs

`SubmitRemoteVeoJobDto` is `src/videos/dto/submit_remote_veo_job_dto.py`:
a `media_item_id` string and a nested `request_dto`. -/

/-- Modelled from the spec: `CreateVeoDto` (`src/videos/dto/create_veo_dto.py`
is absent from `src/`).  Per §3 a Job Request carries the target model
identifier, the prompt text and the generation parameters (aspect ratio,
duration, sampling count). -/
structure CreateVeoDto where
  generation_model : List Nat
  prompt : List Nat
  aspect_ratio : List Nat
  duration_seconds : Int
  sample_count : Int
deriving DecidableEq, Repr

/-- The Queued Job Envelope, `SubmitRemoteVeoJobDto`. -/
structure SubmitRemoteVeoJobDto where
  media_item_id : List Nat
  request_dto : CreateVeoDto
deriving DecidableEq, Repr

/-- `model_dump_json` of `CreateVeoDto`: pydantic emits a compact JSON
object with the fields in declaration order. -/
def dumpCreateVeoDto (d : CreateVeoDto) : List Nat :=
  [123] ++ jsonStr (cp "generation_model") ++ [58] ++ jsonStr d.generation_model ++ [44]
    ++ jsonStr (cp "prompt") ++ [58] ++ jsonStr d.prompt ++ [44]
    ++ jsonStr (cp "aspect_ratio") ++ [58] ++ jsonStr d.aspect_ratio ++ [44]
    ++ jsonStr (cp "duration_seconds") ++ [58] ++ printInt d.duration_seconds ++ [44]
    ++ jsonStr (cp "sample_count") ++ [58] ++ printInt d.sample_count ++ [125]

/-- `model_dump_json` of `SubmitRemoteVeoJobDto`. -/
def dumpEnvelope (e : SubmitRemoteVeoJobDto) : List Nat :=
  [123] ++ jsonStr (cp "media_item_id") ++ [58] ++ jsonStr e.media_item_id ++ [44]
    ++ jsonStr (cp "request_dto") ++ [58] ++ dumpCreateVeoDto e.request_dto ++ [125]

/-- Look a key up in a parsed JSON object (Python `dict` access). -/
def lookupKey (kvs : List (List Nat × PyJson)) (k : List Nat) : Option PyJson :=
  (kvs.find? (fun p => p.1 == k)).map (·.2)

/-- Modelled from the spec: validation of the nested `request_dto` against
`CreateVeoDto` (the DTO module and the shared `BaseDto` configuration are
absent from `src/`).  Per §3 every recognized field is required with its
declared type and "any field not recognized during deserialization must
cause rejection, not silent drop"; failure raises
`pydantic_core.ValidationError`. -/
def validateCreateVeoDto (j : PyJson) : Except PyExc CreateVeoDto :=
  match j with
  | .obj kvs =>
    if kvs.all (fun p => p.1 == cp "generation_model" || p.1 == cp "prompt" ||
        p.1 == cp "aspect_ratio" || p.1 == cp "duration_seconds" ||
        p.1 == cp "sample_count") then
      match lookupKey kvs (cp "generation_model"), lookupKey kvs (cp "prompt"),
        lookupKey kvs (cp "aspect_ratio"), lookupKey kvs (cp "duration_seconds"),
        lookupKey kvs (cp "sample_count") with
      | some (.str gm), some (.str p), some (.str ar), some (.num d), some (.num sc) =>
        .ok ⟨gm, p, ar, d, sc⟩
      | _, _, _, _, _ => .error .validationError
    else .error .validationError
  | _ => .error .validationError

/-- `SubmitRemoteVeoJobDto.model_validate`: both declared fields are
required with their declared types (`media_item_id: str`,
`request_dto: CreateVeoDto`); unrecognized fields are rejected. -/
def validateEnvelope (j : PyJson) : Except PyExc SubmitRemoteVeoJobDto :=
  match j with
  | .obj kvs =>
    if kvs.all (fun p => p.1 == cp "media_item_id" || p.1 == cp "request_dto") then
      match lookupKey kvs (cp "media_item_id"), lookupKey kvs (cp "request_dto") with
      | some (.str id), some inner =>
        (validateCreateVeoDto inner).map (fun d => ⟨id, d⟩)
      | _, _ => .error .validationError
    else .error .validationError
  | _ => .error .validationError

/-- The producer-side wire encoding of an envelope: `model_dump_json`,
UTF-8 encoding (`veo_executor_service.py` line 59), then the base64
wrapping applied by the queue infrastructure when delivering the message
to the cloud function. -/
def producerEncode (e : SubmitRemoteVeoJobDto) : List Nat :=
  b64encode (utf8Encode (dumpEnvelope e))

/-- The parsed JSON value of a dumped `CreateVeoDto` (used to relate the
printer, the parser and the validator). -/
def astCreateVeoDto (d : CreateVeoDto) : PyJson :=
  .obj [(cp "generation_model", .str d.generation_model),
        (cp "prompt", .str d.prompt),
        (cp "aspect_ratio", .str d.aspect_ratio),
        (cp "duration_seconds", .num d.duration_seconds),
        (cp "sample_count", .num d.sample_count)]

/-- The parsed JSON value of a dumped `SubmitRemoteVeoJobDto`. -/
def astEnvelope (e : SubmitRemoteVeoJobDto) : PyJson :=
  .obj [(cp "media_item_id", .str e.media_item_id),
        (cp "request_dto", astCreateVeoDto e.request_dto)]

/-! ## The Remote Job Receiver (`main.py`,
`remote_veo_executor_cloud_function_entrypoint`) -/

/-- The observable outcome of one invocation of the cloud-function
entrypoint: a normal return (the message is acknowledged) with the
returned message and status code, or a propagated exception (the message
is not acknowledged and is redelivered). -/
inductive EntrypointResult where
  | ack (msg : List Nat) (code : Nat)
  | raised (e : PyExc)
deriving DecidableEq, Repr

/-- The body of the entrypoint's `try` block: base64-decode, UTF-8-decode,
`json.loads`, `model_validate` (`main.py` lines 72-83). -/
def runStages (s : List Nat) : Except PyExc SubmitRemoteVeoJobDto := do
  let bytes ← b64decodePy s
  let txt ← utf8Decode bytes
  let j ← jsonLoads txt
  validateEnvelope j

/-- `remote_veo_executor_cloud_function_entrypoint` (`main.py` lines
54-101), parameterized over the state type `σ` and the effect of
`_process_video_in_background` on it.  The `except` clauses acknowledge
`json.JSONDecodeError`/`UnicodeDecodeError` and
`pydantic_core.ValidationError`; every other exception is re-raised.  The
processing call sits after the `try`/`except` block, so its exceptions
propagate. -/
def remoteVeoEntrypoint {σ : Type}
    (process : List Nat → CreateVeoDto → σ → σ × Except PyExc Unit)
    (st : σ) (messageData : Option (List Nat)) : σ × EntrypointResult :=
  match messageData with
  | none => (st, .ack (cp "No message data received") 400)
  | some s =>
    if s = [] then (st, .ack (cp "No message data received") 400)
    else
      match runStages s with
      | .error .jsonDecodeError => (st, .ack (cp "Message is not valid JSON or UTF-8") 200)
      | .error .unicodeDecodeError => (st, .ack (cp "Message is not valid JSON or UTF-8") 200)
      | .error .validationError => (st, .ack (cp "Data validation failed") 200)
      | .error e => (st, .raised e)
      | .ok env =>
        match process env.media_item_id env.request_dto st with
        | (st2, .ok _) => (st2, .ack (cp "Successfully processed message") 200)
        | (st2, .error e) => (st2, .raised e)

/-- Instrumented processing routine used to observe whether the entrypoint
invoked `_process_video_in_background`: the state records the invocation
and `f` gives the routine's outcome. -/
def procFlag (f : List Nat → CreateVeoDto → Except PyExc Unit)
    (id : List Nat) (dto : CreateVeoDto) (_ : Bool) : Bool × Except PyExc Unit :=
  (true, f id dto)

/-! ## Execution-backend selection and the remote publisher
(`src/videos/veo_executor_service.py`) -/

/-- The value held in `VeoExecutorService.executor` after construction:
the worker pool (for `local`), a `RemoteVeoExecutor` (for `remote`), or —
through the `dict.get` default — the enum member
`ExecutorTypeEnum.LOCAL_VEO_EXECUTOR_TYPE` itself. -/
inductive ExecutorChoice where
  | pool
  | remoteExecutor (projectId topicId : List Nat)
  | enumMemberFallback
deriving DecidableEq, Repr

/-- `VeoExecutorService.__init__` (`veo_executor_service.py` lines 84-96):
builds a dict keyed by the two enum members (a `str` enum, so the keys
equal the strings `"local"` and `"remote"`), then looks the configured
value up with `dict.get`, whose default is the enum member
`ExecutorTypeEnum.LOCAL_VEO_EXECUTOR_TYPE` — not a backend, and no
exception is raised. -/
def veoExecutorServiceInit (veoExecutorType : List Nat)
    (projectId topicId : List Nat) : ExecutorChoice :=
  if veoExecutorType = cp "local" then .pool
  else if veoExecutorType = cp "remote" then .remoteExecutor projectId topicId
  else .enumMemberFallback

/-- The outcomes of the external Pub/Sub calls made by
`_publish_pydantic_model_to_pubsub`, supplied as parameters of the model:
client/topic-path initialization and the blocking `future.result()` of the
publish (returning a message id on success). -/
structure PubSubOutcomes where
  clientInit : Except PyExc Unit
  publish : Except PyExc (List Nat)

/-- `RemoteVeoExecutor._publish_pydantic_model_to_pubsub`
(`veo_executor_service.py` lines 33-76).  Initialization failures of class
`GoogleAPICallError` are caught and `None` is returned; the serialization
(`model_dump_json().encode("utf-8")`, modelled by the total functions
`dumpEnvelope` and `utf8Encode`) cannot fail; `NotFound` and any other
publish exception are caught and `None` is returned.  The result is the
message id on success, `None` otherwise; an exception escapes only if
client initialization raises something other than `GoogleAPICallError`. -/
def publishPydanticModelToPubsub (outcomes : PubSubOutcomes)
    (eventData : SubmitRemoteVeoJobDto) : Except PyExc (Option (List Nat)) :=
  let _messageBytes := utf8Encode (dumpEnvelope eventData)
  match outcomes.clientInit with
  | .error .googleAPICallError => .ok none
  | .error e => .error e
  | .ok _ =>
    match outcomes.publish with
    | .ok messageId => .ok (some messageId)
    | .error _ => .ok none

/-- `RemoteVeoExecutor.submit` (`veo_executor_service.py` lines 18-31):
builds the envelope, calls the publish helper and discards its return
value, returning `None`. -/
def remoteVeoExecutorSubmit (outcomes : PubSubOutcomes)
    (media_item_id : List Nat) (request_dto : CreateVeoDto) : Except PyExc Unit :=
  match publishPydanticModelToPubsub outcomes ⟨media_item_id, request_dto⟩ with
  | .ok _ => .ok ()
  | .error e => .error e

/-! ## Job records and the record store -/

/-- `JobStatusEnum` (`src/common/schema/media_item_model.py`): the job
lifecycle states of §4.3. -/
inductive JobStatusEnum where
  | pending
  | completed
  | failed
deriving DecidableEq, Repr

/-- The media MIME types distinguished by `generate_images`. -/
inductive MimeTypeEnum where
  | imagePng
  | imageJpeg
deriving DecidableEq, Repr

/-- `MediaItemModel`: the persisted Job Record, with the fields set by the
constructor call in `base_image_service.py` lines 164-184 plus the
identity and the error detail of §3 (the model module itself is absent
from `src/`; unset fields default as in the constructor call). -/
structure MediaItemModel where
  id : List Nat := []
  user_email : List Nat := []
  mime_type : MimeTypeEnum := .imagePng
  model : List Nat := []
  prompt : List Nat := []
  original_prompt : List Nat := []
  num_media : Nat := 0
  generation_time : Int := 0
  aspect_ratio : List Nat := []
  gcs_uris : List (List Nat) := []
  status : JobStatusEnum := .pending
  style : List Nat := []
  lighting : List Nat := []
  color_and_tone : List Nat := []
  composition : List Nat := []
  negative_prompt : List Nat := []
  add_watermark : Bool := false
  error_message : Option (List Nat) := none
deriving DecidableEq, Repr

/-- The Job Record Store, a mapping from record id to record. -/
def Store : Type := List Nat → Option MediaItemModel

/-- Keyed single-record write to the store. -/
def Store.write (st : Store) (id : List Nat) (r : MediaItemModel) : Store :=
  fun k => if k = id then some r else st k

/-- Modelled from the spec: `_process_video_in_background`
(`src/videos/veo_service.py`, absent from `src/`).  Per §4.3 and §7 the
completion handler checks the record's current status before applying a
terminal transition and discards (logging) late or duplicate completions,
so a record in a terminal state is left unchanged; otherwise the
generation call runs (its outcome supplied as the `generation` parameter)
and the record moves to COMPLETED with its result URIs, or to FAILED with
the error detail.  A missing record is likewise discarded.  The handler
itself does not raise. -/
def processVideoInBackground (generation : Except PyExc (List (List Nat)))
    (id : List Nat) (_dto : CreateVeoDto) (st : Store) : Store × Except PyExc Unit :=
  match st id with
  | none => (st, .ok ())
  | some r =>
    if r.status = .completed ∨ r.status = .failed then (st, .ok ())
    else
      match generation with
      | .ok uris =>
        (st.write id { r with status := .completed, gcs_uris := uris }, .ok ())
      | .error e =>
        (st.write id { r with status := .failed, error_message := some e.str }, .ok ())

/-- Modelled from the spec: `VeoService.start_video_generation_job`
(`src/videos/veo_service.py`, absent from `src/`).  Per §4.2 it enhances
the prompt (failures propagate before any record is created), creates and
persists a PENDING record with a server-generated id and no result URIs,
calls the selected backend's `submit` with the record id and the request,
and returns the fresh record without waiting for generation. -/
def startVideoGenerationJob
    (submit : List Nat → CreateVeoDto → Except PyExc Unit)
    (enhance : Except PyExc (List Nat)) (freshId : List Nat)
    (userEmail : List Nat) (dto : CreateVeoDto) (st : Store) :
    Store × Except PyExc MediaItemModel :=
  match enhance with
  | .error e => (st, .error e)
  | .ok enhancedPrompt =>
    let record : MediaItemModel :=
      { id := freshId, user_email := userEmail, model := dto.generation_model,
        prompt := enhancedPrompt, original_prompt := dto.prompt,
        aspect_ratio := dto.aspect_ratio, gcs_uris := [],
        status := .pending, error_message := none }
    let st2 := st.write freshId record
    match submit freshId dto with
    | .error e => (st2, .error e)
    | .ok _ => (st2, .ok record)

/-! ## The video controller (`src/videos/veo_controller.py`) -/

/-- Whether the modelled exception class is a `ValueError` subclass in
Python (`json.JSONDecodeError`, `binascii.Error`, `UnicodeDecodeError`
and pydantic's `ValidationError` all are). -/
def PyExc.isValueError : PyExc → Bool
  | .valueError => true
  | .jsonDecodeError => true
  | .binasciiError => true
  | .unicodeDecodeError => true
  | .validationError => true
  | _ => false

/-- The `except` cascade shared by `generate_videos` and
`generate_videos_batch` (`veo_controller.py` lines 56-67 and 101-112):
`HTTPException` is re-raised, any `ValueError` becomes a 400, anything
else a 500, with `str(e)` as the detail. -/
def controllerExceptCascade {α : Type} (r : Except PyExc α) : Except PyExc α :=
  match r with
  | .ok v => .ok v
  | .error (.httpException c d) => .error (.httpException c d)
  | .error e =>
    if e.isValueError then .error (.httpException 400 e.str)
    else .error (.httpException 500 e.str)

/-- `generate_videos` (`veo_controller.py` lines 41-67): one
`start_video_generation_job` call (its outcome supplied by `startJob`)
wrapped in the exception cascade. -/
def generateVideos (startJob : Store → Store × Except PyExc MediaItemModel)
    (st : Store) : Store × Except PyExc MediaItemModel :=
  let (st2, r) := startJob st
  (st2, controllerExceptCascade r)

/-- The `for video_request in video_requests` loop of
`generate_videos_batch` (`veo_controller.py` lines 81-90): every request
is attempted, successes go to `successful_results` and failures to
`failed_tasks` as `(video_request, error)` pairs. -/
def batchLoop (startJob : CreateVeoDto → Except PyExc MediaItemModel) :
    List CreateVeoDto → List MediaItemModel × List (CreateVeoDto × PyExc)
  | [] => ([], [])
  | req :: rest =>
    match startJob req with
    | .ok r =>
      let (s, f) := batchLoop startJob rest
      (r :: s, f)
    | .error e =>
      let (s, f) := batchLoop startJob rest
      (s, (req, e) :: f)

/-- The aggregated error message built by `generate_videos_batch`
(`veo_controller.py` lines 94-97): a header with the failure count and one
line per `(request, error)` pair showing only the exception's type and
message (the request itself does not appear). -/
def batchErrorMessage (total : Nat) (failedTasks : List (CreateVeoDto × PyExc)) :
    List Nat :=
  cp "Processing failed for " ++ natDigits failedTasks.length ++ cp " out of "
    ++ natDigits total ++ cp " tasks:\n"
    ++ failedTasks.flatMap (fun p =>
        cp "  - Item: " ++ p.2.className ++ cp "('" ++ p.2.str ++ cp "')\n")

/-- `generate_videos_batch` (`veo_controller.py` lines 69-112): each
request is attempted independently (`startJob` gives the per-item
outcome), successes and failures are collected, and if any item failed an
`Exception` carrying the aggregate message is raised, which the cascade
turns into an HTTP 500 — the successful records are not returned, and the
failure lines do not carry the originating request. -/
def generateVideosBatch (startJob : CreateVeoDto → Except PyExc MediaItemModel)
    (requests : List CreateVeoDto) : Except PyExc (List MediaItemModel) :=
  let (successes, failedTasks) := batchLoop startJob requests
  let raw : Except PyExc (List MediaItemModel) :=
    if failedTasks = [] then .ok successes
    else .error (.generic (batchErrorMessage requests.length failedTasks))
  controllerExceptCascade raw

/-! ## The image generation service
(`src/models/base/base_image_service.py`, `generate_images`) -/

/-- `CreateImagenDto`, with the fields `generate_images` reads (the DTO
module is absent from `src/`; the fields are taken from their uses in
`base_image_service.py`). -/
structure CreateImagenDto where
  prompt : List Nat
  generation_model : List Nat
  aspect_ratio : List Nat
  upscale_factor : Option (List Nat)
  style : List Nat
  lighting : List Nat
  color_and_tone : List Nat
  composition : List Nat
  negative_prompt : List Nat
  add_watermark : Bool
deriving DecidableEq, Repr

/-- A `google.genai` image reference: its GCS URI (empty list models a
missing/empty `gcs_uri`) and MIME type string. -/
structure ImageRef where
  gcs_uri : List Nat
  mime_type : List Nat
deriving DecidableEq, Repr

/-- A `types.GeneratedImage`: `image` may be `None`. -/
structure GeneratedImage where
  image : Option ImageRef
deriving DecidableEq, Repr

/-- The `UpscaleImagenDto` built in `base_image_service.py` lines 118-129. -/
structure UpscaleImagenDto where
  generation_model : List Nat
  user_image : List Nat
  mime_type : MimeTypeEnum
  upscale_factor : List Nat
deriving DecidableEq, Repr

/-- Python truthiness of `img.image and img.image.gcs_uri`
(`base_image_service.py` line 106). -/
def imgValid (i : GeneratedImage) : Bool :=
  match i.image with
  | some ref => ref.gcs_uri ≠ []
  | none => false

/-- The observable effects of one `generate_images` call: the request
object after the call (line 86 assigns to `request_dto.prompt`), the
record passed to `media_repo.save` if the save was reached, and the
returned value (`None` when no images came back) or propagated
exception. -/
structure GenerateImagesRun where
  finalDto : CreateImagenDto
  saved : Option MediaItemModel
  result : Except PyExc (Option (MediaItemModel × List (List Nat)))
deriving Repr

/-- `BaseImageService.generate_images` (`base_image_service.py` lines
70-194), parameterized over its external collaborators: the prompt
enhancement (`enhance`), the abstract `_generate_images` call (`gen`),
the per-DTO `upscale_image` results (`upscale`, `none` modelling a falsy
result), the presigned-URL generation (`presign`) and the elapsed time.
The body mirrors the source: the prompt is rewritten and assigned back
onto `request_dto`; an empty generation result returns `None`; the
`valid_generated_images[0]` access raises `IndexError` when no generated
image has a URI; with `upscale_factor` set the permanent URIs come from
the upscale results (dropping falsy entries), otherwise from the valid
generated images; a single COMPLETED `MediaItemModel` is saved; any
exception inside the `try` is re-raised. -/
def generateImages
    (enhance : Except PyExc (List Nat))
    (gen : Except PyExc (List GeneratedImage))
    (upscale : UpscaleImagenDto → Except PyExc (Option GeneratedImage))
    (presign : List Nat → List Nat)
    (generationTime : Int)
    (request_dto : CreateImagenDto) (userEmail : List Nat) : GenerateImagesRun :=
  match enhance with
  | .error e => { finalDto := request_dto, saved := none, result := .error e }
  | .ok rewrittenPrompt =>
    let originalPrompt := request_dto.prompt
    let dto := { request_dto with prompt := rewrittenPrompt }
    match gen with
    | .error e => { finalDto := dto, saved := none, result := .error e }
    | .ok allGeneratedImages =>
      if allGeneratedImages = [] then
        { finalDto := dto, saved := none, result := .ok none }
      else
        let valid := allGeneratedImages.filter imgValid
        match valid with
        | [] => { finalDto := dto, saved := none, result := .error .indexError }
        | v0 :: _ =>
          let mimeType : MimeTypeEnum :=
            match v0.image with
            | some ref => if ref.mime_type = cp "image/png" then .imagePng else .imageJpeg
            | none => .imageJpeg
          let permanentResult : Except PyExc (List (List Nat)) :=
            match dto.upscale_factor with
            | some factor =>
              let upscaleDtos := valid.filterMap (fun img =>
                img.image.map (fun ref =>
                  ({ generation_model := dto.generation_model,
                     user_image := ref.gcs_uri,
                     mime_type := if ref.mime_type = cp "image/png"
                       then .imagePng else .imageJpeg,
                     upscale_factor := factor } : UpscaleImagenDto)))
              match upscaleDtos.mapM upscale with
              | .error e => .error e
              | .ok upscaleImages =>
                .ok (upscaleImages.filterMap (fun o =>
                  match o with
                  | some img =>
                    match img.image with
                    | some ref => if ref.gcs_uri ≠ [] then some ref.gcs_uri else none
                    | none => none
                  | none => none))
            | none =>
              .ok (valid.filterMap (fun img =>
                match img.image with
                | some ref => if ref.gcs_uri ≠ [] then some ref.gcs_uri else none
                | none => none))
          match permanentResult with
          | .error e => { finalDto := dto, saved := none, result := .error e }
          | .ok permanentGcsUris =>
            let presignedUrls := permanentGcsUris.map presign
            let record : MediaItemModel :=
              { user_email := userEmail, mime_type := mimeType,
                model := dto.generation_model, prompt := rewrittenPrompt,
                original_prompt := originalPrompt,
                num_media := permanentGcsUris.length,
                generation_time := generationTime,
                aspect_ratio := dto.aspect_ratio,
                gcs_uris := permanentGcsUris, status := .completed,
                style := dto.style, lighting := dto.lighting,
                color_and_tone := dto.color_and_tone,
                composition := dto.composition,
                negative_prompt := dto.negative_prompt,
                add_watermark := dto.add_watermark }
            { finalDto := dto, saved := some record,
              result := .ok (some (record, presignedUrls)) }

/-! ## Lemmas: base64 round-trip -/

theorem b64Char_lt_128 (n : Nat) : b64Char n < 128 := by
  unfold b64Char; split_ifs <;> omega

theorem b64Val_b64Char (n : Nat) (h : n < 64) : b64Val (b64Char n) = some n := by
  unfold b64Char b64Val
  split_ifs <;> first | (simp only [Option.some.injEq]; omega) | omega

theorem b64Char_ne_61 (n : Nat) : b64Char n ≠ 61 := by
  unfold b64Char; split_ifs <;> omega

theorem isB64Alpha_b64Char (n : Nat) : isB64Alpha (b64Char n) = true := by
  unfold isB64Alpha b64Val b64Char
  split_ifs <;> first | rfl | omega

theorem b64encode_mem (bs : List Nat) :
    ∀ c ∈ b64encode bs, (isB64Alpha c || c == 61) = true ∧ c < 128 := by
  match bs with
  | [] => simp [b64encode]
  | [a] =>
    simp only [b64encode, List.mem_cons, List.not_mem_nil, or_false]
    rintro c (rfl | rfl | rfl | rfl) <;> simp [isB64Alpha_b64Char, b64Char_lt_128]
  | [a, b] =>
    simp only [b64encode, List.mem_cons, List.not_mem_nil, or_false]
    rintro c (rfl | rfl | rfl | rfl) <;> simp [isB64Alpha_b64Char, b64Char_lt_128]
  | a :: b :: d :: rest =>
    simp only [b64encode, List.mem_cons]
    rintro c (rfl | rfl | rfl | rfl | hc)
    · simp [isB64Alpha_b64Char, b64Char_lt_128]
    · simp [isB64Alpha_b64Char, b64Char_lt_128]
    · simp [isB64Alpha_b64Char, b64Char_lt_128]
    · simp [isB64Alpha_b64Char, b64Char_lt_128]
    · exact b64encode_mem rest c hc

theorem b64decodeCore_encode (bs : List Nat) (h : ∀ b ∈ bs, b < 256) :
    b64decodeCore (b64encode bs) = .ok bs := by
  match bs with
  | [] => rfl
  | [a] =>
    have ha : a < 256 := h a (by simp)
    simp [b64encode, b64decodeCore,
      b64Val_b64Char (a / 4) (by omega), b64Val_b64Char (a % 4 * 16) (by omega),
      Except.map]
    all_goals omega
  | [a, b] =>
    have ha : a < 256 := h a (by simp)
    have hb : b < 256 := h b (by simp)
    simp [b64encode, b64decodeCore, b64Char_ne_61,
      b64Val_b64Char (a / 4) (by omega), b64Val_b64Char (a % 4 * 16 + b / 16) (by omega),
      b64Val_b64Char (b % 16 * 4) (by omega), Except.map]
    all_goals omega
  | a :: b :: d :: rest =>
    have ha : a < 256 := h a (by simp)
    have hb : b < 256 := h b (by simp)
    have hd : d < 256 := h d (by simp)
    have hrest : ∀ x ∈ rest, x < 256 := fun x hx => h x (by simp [hx])
    have ih := b64decodeCore_encode rest hrest
    simp [b64encode, b64decodeCore, b64Char_ne_61, ih,
      b64Val_b64Char (a / 4) (by omega), b64Val_b64Char (a % 4 * 16 + b / 16) (by omega),
      b64Val_b64Char (b % 16 * 4 + d / 64) (by omega), b64Val_b64Char (d % 64) (by omega),
      Except.map]
    all_goals omega

/-- `base64.b64decode` inverts `base64.b64encode` on byte strings. -/
theorem b64decodePy_encode (bs : List Nat) (h : ∀ b ∈ bs, b < 256) :
    b64decodePy (b64encode bs) = .ok bs := by
  unfold b64decodePy
  have hno : ¬ (b64encode bs).any (fun c => 128 ≤ c) = true := by
    rw [List.any_eq_true]
    rintro ⟨c, hc, hle⟩
    have h2 := (b64encode_mem bs c hc).2
    simp only [decide_eq_true_eq] at hle
    omega
  rw [if_neg hno, List.filter_eq_self.mpr (fun c hc => (b64encode_mem bs c hc).1)]
  exact b64decodeCore_encode bs h

/-! ## Lemmas: UTF-8 round-trip -/

theorem utf8EncodeChar_lt_256 (c : Nat) (h : ValidCp c) :
    ∀ b ∈ utf8EncodeChar c, b < 256 := by
  obtain ⟨h1, _⟩ := h
  unfold utf8EncodeChar
  split_ifs <;> intro b hb <;> fin_cases hb <;> omega

theorem utf8EncodeChar_ne_nil (c : Nat) : utf8EncodeChar c ≠ [] := by
  unfold utf8EncodeChar; split_ifs <;> simp

theorem utf8DecodeOne_encodeChar (c : Nat) (h : ValidCp c) (rest : List Nat) :
    utf8DecodeOne (utf8EncodeChar c ++ rest) = .ok (c, rest) := by
  obtain ⟨h1, h2⟩ := h
  unfold utf8EncodeChar
  split_ifs with hc1 hc2 hc3
  · rw [List.cons_append, List.nil_append, utf8DecodeOne.eq_def]
    dsimp only
    rw [if_pos hc1]
  · have e4 : isCont (0x80 + c % 64) = true := by
      simp only [isCont, decide_eq_true_eq]; omega
    rw [List.cons_append, List.cons_append, List.nil_append, utf8DecodeOne.eq_def]
    dsimp only
    rw [if_neg (by omega), if_neg (by omega), if_pos (by omega)]
    simp only [e4, if_pos]
    rw [show (0xC0 + c / 64 - 0xC0) * 64 + (0x80 + c % 64 - 0x80) = c by omega]
  · have e5 : isCont (0x80 + c / 64 % 64) = true := by
      simp only [isCont, decide_eq_true_eq]; omega
    have e6 : isCont (0x80 + c % 64) = true := by
      simp only [isCont, decide_eq_true_eq]; omega
    rw [List.cons_append, List.cons_append, List.cons_append, List.nil_append,
      utf8DecodeOne.eq_def]
    dsimp only
    rw [if_neg (by omega), if_neg (by omega), if_neg (by omega), if_pos (by omega)]
    simp only [e5, e6, Bool.and_self, if_pos]
    rw [if_pos (by constructor <;> omega)]
    rw [show (0xE0 + c / 4096 - 0xE0) * 4096 + (0x80 + c / 64 % 64 - 0x80) * 64 +
      (0x80 + c % 64 - 0x80) = c by omega]
  · have e6 : isCont (0x80 + c / 4096 % 64) = true := by
      simp only [isCont, decide_eq_true_eq]; omega
    have e7 : isCont (0x80 + c / 64 % 64) = true := by
      simp only [isCont, decide_eq_true_eq]; omega
    have e8 : isCont (0x80 + c % 64) = true := by
      simp only [isCont, decide_eq_true_eq]; omega
    rw [List.cons_append, List.cons_append, List.cons_append, List.cons_append,
      List.nil_append, utf8DecodeOne.eq_def]
    dsimp only
    rw [if_neg (by omega), if_neg (by omega), if_neg (by omega), if_neg (by omega),
      if_pos (by omega)]
    simp only [e6, e7, e8, Bool.and_self, if_pos]
    rw [if_pos (by constructor <;> omega)]
    rw [show (0xF0 + c / 262144 - 0xF0) * 262144 + (0x80 + c / 4096 % 64 - 0x80) * 4096 +
      (0x80 + c / 64 % 64 - 0x80) * 64 + (0x80 + c % 64 - 0x80) = c by omega]

theorem utf8DecodeAux_nil (fuel : Nat) : utf8DecodeAux fuel [] = .ok [] := by
  cases fuel <;> rfl

theorem utf8DecodeAux_encode (s : List Nat) :
    ∀ fuel : Nat, ValidStr s → (utf8Encode s).length ≤ fuel →
    utf8DecodeAux fuel (utf8Encode s) = .ok s := by
  induction s with
  | nil => intro fuel _ _; exact utf8DecodeAux_nil fuel
  | cons c tl ih =>
    intro fuel hv hlen
    have hc : ValidCp c := hv c (by simp)
    have htl : ValidStr tl := fun x hx => hv x (by simp [hx])
    have henc : utf8Encode (c :: tl) = utf8EncodeChar c ++ utf8Encode tl := by
      simp [utf8Encode]
    rw [henc] at hlen ⊢
    obtain ⟨e1, erest, he⟩ : ∃ e1 erest, utf8EncodeChar c = e1 :: erest := by
      cases hh : utf8EncodeChar c with
      | nil => exact absurd hh (utf8EncodeChar_ne_nil c)
      | cons x xs => exact ⟨x, xs, rfl⟩
    have hlen1 : 1 ≤ (utf8EncodeChar c).length := by rw [he]; simp
    rw [List.length_append] at hlen
    obtain ⟨f, rfl⟩ : ∃ f, fuel = f + 1 := by
      cases fuel with
      | zero => omega
      | succ f => exact ⟨f, rfl⟩
    rw [he, List.cons_append, utf8DecodeAux, ← List.cons_append, ← he,
      utf8DecodeOne_encodeChar c hc]
    dsimp only
    rw [ih f htl (by omega)]
    rfl

/-- `bytes.decode("utf-8")` inverts `str.encode("utf-8")` on encodable
strings. -/
theorem utf8Decode_encode (s : List Nat) (h : ValidStr s) :
    utf8Decode (utf8Encode s) = .ok s :=
  utf8DecodeAux_encode s (utf8Encode s).length h le_rfl

theorem utf8Encode_lt_256 (s : List Nat) (h : ValidStr s) :
    ∀ b ∈ utf8Encode s, b < 256 := by
  intro b hb
  simp only [utf8Encode, List.mem_flatMap] at hb
  obtain ⟨c, hc, hbc⟩ := hb
  exact utf8EncodeChar_lt_256 c (h c hc) b hbc

/-! ## Lemmas: the JSON printer/parser round-trip on envelope payloads -/

theorem skipWs_cons (c : Nat) (rest : List Nat)
    (h : ¬ (c = 32 ∨ c = 9 ∨ c = 10 ∨ c = 13)) : skipWs (c :: rest) = c :: rest := by
  rw [skipWs, if_neg h]

theorem hexVal_hexDigit (n : Nat) (h : n < 16) : hexVal (hexDigit n) = some n := by
  unfold hexDigit hexVal
  split_ifs <;> first | (simp only [Option.some.injEq]; omega) | omega

theorem parseStringBody_escape (s : List Nat) (rest : List Nat) :
    parseStringBody (jsonEscape s ++ 34 :: rest) = some (s, rest) := by
  induction s with
  | nil =>
    show parseStringBody (([] : List Nat).flatMap jsonEscapeChar ++ 34 :: rest) = _
    rw [List.flatMap_nil, List.nil_append, parseStringBody.eq_def]
    dsimp only
    rw [if_pos rfl]
  | cons c tl ih =>
    have hesc : jsonEscape (c :: tl) = jsonEscapeChar c ++ jsonEscape tl := by
      simp [jsonEscape]
    rw [hesc, List.append_assoc]
    unfold jsonEscapeChar
    split_ifs with h34 h92 h8 h9 h10 h12 h13 hlt
    · subst h34
      rw [List.cons_append, List.cons_append, List.nil_append, parseStringBody.eq_def]
      dsimp only
      simp only [reduceIte]
      rw [ih]
      rfl
    · subst h92
      rw [List.cons_append, List.cons_append, List.nil_append, parseStringBody.eq_def]
      dsimp only
      simp only [reduceIte]
      rw [ih]
      rfl
    · subst h8
      rw [List.cons_append, List.cons_append, List.nil_append, parseStringBody.eq_def]
      dsimp only
      simp only [reduceIte]
      rw [ih]
      rfl
    · subst h9
      rw [List.cons_append, List.cons_append, List.nil_append, parseStringBody.eq_def]
      dsimp only
      simp only [reduceIte]
      rw [ih]
      rfl
    · subst h10
      rw [List.cons_append, List.cons_append, List.nil_append, parseStringBody.eq_def]
      dsimp only
      simp only [reduceIte]
      rw [ih]
      rfl
    · subst h12
      rw [List.cons_append, List.cons_append, List.nil_append, parseStringBody.eq_def]
      dsimp only
      simp only [reduceIte]
      rw [ih]
      rfl
    · subst h13
      rw [List.cons_append, List.cons_append, List.nil_append, parseStringBody.eq_def]
      dsimp only
      simp only [reduceIte]
      rw [ih]
      rfl
    · -- control character emitted as a  \ u 0 0 X X  escape
      rw [List.cons_append, List.cons_append, List.cons_append, List.cons_append,
        List.cons_append, List.cons_append, List.nil_append, parseStringBody.eq_def]
      dsimp only
      simp only [reduceIte]
      rw [show hexVal 48 = some 0 from rfl, hexVal_hexDigit (c / 16) (by omega),
        hexVal_hexDigit (c % 16) (by omega), ih]
      show some ((0 * 4096 + 0 * 256 + c / 16 * 16 + c % 16) :: tl, rest) = _
      rw [show 0 * 4096 + 0 * 256 + c / 16 * 16 + c % 16 = c from by omega]
    · -- an ordinary character is emitted raw
      rw [List.cons_append, List.nil_append, parseStringBody.eq_def]
      dsimp only
      rw [if_neg h34, if_neg h92, ih]
      rfl

theorem natDigitsAux_mem (fuel n : Nat) (h : n ≤ fuel) :
    ∀ c ∈ natDigitsAux (fuel + 1) n, 48 ≤ c ∧ c ≤ 57 := by
  match fuel with
  | 0 =>
    intro c hc
    have hn : n = 0 := by omega
    subst hn
    rw [show natDigitsAux 1 0 = [48] from rfl] at hc
    simp only [List.mem_cons, List.not_mem_nil, or_false] at hc
    omega
  | f + 1 =>
    intro c hc
    rw [natDigitsAux] at hc
    by_cases h10 : n < 10
    · rw [if_pos h10] at hc
      simp only [List.mem_cons, List.not_mem_nil, or_false] at hc
      omega
    · rw [if_neg h10] at hc
      rcases List.mem_append.mp hc with hm | hm
      · exact natDigitsAux_mem f (n / 10) (by omega) c hm
      · simp only [List.mem_cons, List.not_mem_nil, or_false] at hm
        omega

theorem natDigits_mem (n : Nat) : ∀ c ∈ natDigits n, 48 ≤ c ∧ c ≤ 57 :=
  natDigitsAux_mem n n le_rfl

theorem natDigits_ne_nil (n : Nat) : natDigits n ≠ [] := by
  unfold natDigits natDigitsAux
  by_cases h10 : n < 10
  · rw [if_pos h10]; simp
  · rw [if_neg h10]; simp

theorem parseDigits_run (ds : List Nat) (hne : ds ≠ [])
    (hd : ∀ d ∈ ds, isDigit d = true) :
    ∀ acc : Nat, ∀ seen : Bool, ∀ rest : List Nat,
    parseDigits acc seen (ds ++ rest) =
      parseDigits (ds.foldl (fun a d => a * 10 + (d - 48)) acc) true rest := by
  induction ds with
  | nil => exact absurd rfl hne
  | cons d tl ih =>
    intro acc seen rest
    have hdd : isDigit d = true := hd d (by simp)
    rw [List.cons_append, parseDigits, if_pos hdd, List.foldl_cons]
    by_cases htl : tl = []
    · subst htl; rfl
    · exact ih htl (fun x hx => hd x (by simp [hx])) _ true rest

theorem parseDigits_stop (acc : Nat) (c : Nat) (rest : List Nat)
    (h : isDigit c = false) :
    parseDigits acc true (c :: rest) = some (acc, c :: rest) := by
  rw [parseDigits, h]
  simp

theorem natDigitsAux_foldl (fuel n : Nat) (h : n ≤ fuel) :
    ∃ M : Nat, 0 < M ∧ ∀ acc : Nat,
      (natDigitsAux (fuel + 1) n).foldl (fun a d => a * 10 + (d - 48)) acc =
        acc * M + n := by
  match fuel with
  | 0 =>
    refine ⟨10, by omega, fun acc => ?_⟩
    have hn : n = 0 := by omega
    subst hn
    rw [show natDigitsAux 1 0 = [48] from rfl]
    simp only [List.foldl_cons, List.foldl_nil]
  | f + 1 =>
    by_cases h10 : n < 10
    · refine ⟨10, by omega, fun acc => ?_⟩
      rw [natDigitsAux, if_pos h10]
      simp only [List.foldl_cons, List.foldl_nil]
      omega
    · obtain ⟨M, hM, hfold⟩ := natDigitsAux_foldl f (n / 10) (by omega)
      refine ⟨M * 10, by omega, fun acc => ?_⟩
      rw [natDigitsAux, if_neg h10, List.foldl_append, hfold acc]
      simp only [List.foldl_cons, List.foldl_nil]
      rw [show 48 + n % 10 - 48 = n % 10 from by omega,
        show (acc * M + n / 10) * 10 = acc * (M * 10) + n / 10 * 10 from by ring]
      omega

theorem natDigits_foldl (n : Nat) :
    (natDigits n).foldl (fun a d => a * 10 + (d - 48)) 0 = n := by
  obtain ⟨M, _, hfold⟩ := natDigitsAux_foldl n n le_rfl
  rw [natDigits, hfold 0, Nat.zero_mul, Nat.zero_add]

theorem parseDigits_natDigits (n : Nat) (c : Nat) (rest : List Nat)
    (hc : isDigit c = false) :
    parseDigits 0 false (natDigits n ++ c :: rest) = some (n, c :: rest) := by
  rw [parseDigits_run (natDigits n) (natDigits_ne_nil n)
    (fun d hd => by
      have := natDigits_mem n d hd
      simp only [isDigit, decide_eq_true_eq]
      omega)]
  rw [natDigits_foldl, parseDigits_stop _ _ _ hc]

theorem parseNumber_printInt (n : Int) (c : Nat) (rest : List Nat)
    (hc : isDigit c = false) :
    parseNumber (printInt n ++ c :: rest) = some (n, c :: rest) := by
  unfold printInt
  split_ifs with hneg
  · rw [List.cons_append, parseNumber, if_pos rfl,
      parseDigits_natDigits n.natAbs c rest hc]
    show some (-(↑n.natAbs : Int), c :: rest) = some (n, c :: rest)
    rw [show -(↑n.natAbs : Int) = n from by omega]
  · obtain ⟨d, ds, hds⟩ : ∃ d ds, natDigits n.natAbs = d :: ds := by
      cases hh : natDigits n.natAbs with
      | nil => exact absurd hh (natDigits_ne_nil _)
      | cons x xs => exact ⟨x, xs, rfl⟩
    have hd48 : 48 ≤ d ∧ d ≤ 57 := natDigits_mem n.natAbs d (by rw [hds]; simp)
    rw [hds, List.cons_append, parseNumber, if_neg (by omega), ← List.cons_append,
      ← hds, parseDigits_natDigits n.natAbs c rest hc]
    show some ((↑n.natAbs : Int), c :: rest) = some (n, c :: rest)
    rw [show (↑n.natAbs : Int) = n from by omega]

theorem jsonStr_cons_shape (s rest : List Nat) :
    jsonStr s ++ rest = 34 :: (jsonEscape s ++ 34 :: rest) := by
  simp [jsonStr]

theorem parseValue_str (f : Nat) (s rest : List Nat) :
    parseValue (f + 1) (jsonStr s ++ rest) = some (.str s, rest) := by
  rw [jsonStr_cons_shape, parseValue.eq_def]
  dsimp only
  rw [skipWs_cons 34 _ (by omega)]
  dsimp only
  rw [if_pos rfl, parseStringBody_escape]
  rfl

theorem parseValue_num (f : Nat) (n : Int) (c : Nat) (rest : List Nat)
    (hdig : isDigit c = false) :
    parseValue (f + 1) (printInt n ++ c :: rest) = some (.num n, c :: rest) := by
  have hmem : ∀ x ∈ printInt n, (x = 45 ∨ (48 ≤ x ∧ x ≤ 57)) := by
    intro x hx
    unfold printInt at hx
    split_ifs at hx with hneg
    · rcases List.mem_cons.mp hx with rfl | hx
      · left; rfl
      · right; exact natDigits_mem _ x hx
    · right; exact natDigits_mem _ x hx
  obtain ⟨p0, ptl, hp⟩ : ∃ p0 ptl, printInt n = p0 :: ptl := by
    cases hh : printInt n with
    | nil =>
      exfalso
      unfold printInt at hh
      split_ifs at hh with hneg
      all_goals first
        | exact absurd hh (List.cons_ne_nil _ _)
        | exact natDigits_ne_nil _ hh
    | cons x xs => exact ⟨x, xs, rfl⟩
  have hp0 : p0 = 45 ∨ (48 ≤ p0 ∧ p0 ≤ 57) := hmem p0 (by rw [hp]; simp)
  rw [hp, List.cons_append, parseValue.eq_def]
  dsimp only
  rw [skipWs_cons p0 _ (by omega)]
  dsimp only
  rw [if_neg (by omega), if_neg (by omega), if_neg (by omega), if_neg (by omega),
    if_neg (by omega), if_neg (by omega)]
  rw [if_pos (by
    rcases hp0 with rfl | hp0
    · left; rfl
    · right; simp only [isDigit, decide_eq_true_eq]; omega)]
  rw [← List.cons_append, ← hp, parseNumber_printInt n c rest hdig]
  rfl

theorem parseMembers_last (f : Nat) (k vtxt rest : List Nat) (pv : PyJson)
    (hval : parseValue f (vtxt ++ 125 :: rest) = some (pv, 125 :: rest)) :
    parseMembers (f + 1) (jsonStr k ++ 58 :: (vtxt ++ 125 :: rest)) =
      some ([(k, pv)], rest) := by
  rw [jsonStr_cons_shape, parseMembers.eq_def]
  dsimp only
  rw [skipWs_cons 34 _ (by omega)]
  dsimp only
  rw [if_pos rfl, parseStringBody_escape]
  dsimp only
  rw [skipWs_cons 58 _ (by omega)]
  dsimp only
  rw [if_pos rfl, hval]
  dsimp only
  rw [skipWs_cons 125 _ (by omega)]
  dsimp only
  rw [if_neg (by omega), if_pos rfl]

theorem parseMembers_cons (f : Nat) (k vtxt rest r : List Nat) (pv : PyJson)
    (ms : List (List Nat × PyJson))
    (hval : parseValue f (vtxt ++ 44 :: rest) = some (pv, 44 :: rest))
    (hms : parseMembers f rest = some (ms, r)) :
    parseMembers (f + 1) (jsonStr k ++ 58 :: (vtxt ++ 44 :: rest)) =
      some ((k, pv) :: ms, r) := by
  rw [jsonStr_cons_shape, parseMembers.eq_def]
  dsimp only
  rw [skipWs_cons 34 _ (by omega)]
  dsimp only
  rw [if_pos rfl, parseStringBody_escape]
  dsimp only
  rw [skipWs_cons 58 _ (by omega)]
  dsimp only
  rw [if_pos rfl, hval]
  dsimp only
  rw [skipWs_cons 44 _ (by omega)]
  dsimp only
  rw [if_pos rfl, hms]
  rfl

theorem parseValue_obj (f : Nat) (k tail rest : List Nat)
    (ms : List (List Nat × PyJson))
    (hms : parseMembers f (jsonStr k ++ 58 :: tail) = some (ms, rest)) :
    parseValue (f + 1) (123 :: (jsonStr k ++ 58 :: tail)) = some (.obj ms, rest) := by
  rw [jsonStr_cons_shape] at hms ⊢
  rw [parseValue.eq_def]
  dsimp only
  rw [skipWs_cons 123 _ (by omega)]
  dsimp only
  rw [if_neg (by omega), if_pos rfl, skipWs_cons 34 _ (by omega)]
  dsimp only
  rw [if_neg (by omega), hms]
  rfl

theorem parseValue_dumpCreateVeoDto (f : Nat) (d : CreateVeoDto) (rest : List Nat) :
    parseValue (f + 7) (dumpCreateVeoDto d ++ rest) =
      some (astCreateVeoDto d, rest) := by
  have h5 : parseMembers (f + 2)
      (jsonStr (cp "sample_count") ++ 58 :: (printInt d.sample_count ++ 125 :: rest)) =
      some ([(cp "sample_count", .num d.sample_count)], rest) :=
    parseMembers_last (f + 1) _ _ _ _ (parseValue_num f _ 125 rest rfl)
  have h4 : parseMembers (f + 3)
      (jsonStr (cp "duration_seconds") ++ 58 :: (printInt d.duration_seconds ++
        44 :: (jsonStr (cp "sample_count") ++ 58 :: (printInt d.sample_count ++
          125 :: rest)))) =
      some ([(cp "duration_seconds", .num d.duration_seconds),
             (cp "sample_count", .num d.sample_count)], rest) :=
    parseMembers_cons (f + 2) _ _ _ _ _ _
      (parseValue_num (f + 1) _ 44 _ rfl) h5
  have h3 : parseMembers (f + 4)
      (jsonStr (cp "aspect_ratio") ++ 58 :: (jsonStr d.aspect_ratio ++
        44 :: (jsonStr (cp "duration_seconds") ++ 58 :: (printInt d.duration_seconds ++
          44 :: (jsonStr (cp "sample_count") ++ 58 :: (printInt d.sample_count ++
            125 :: rest)))))) =
      some ([(cp "aspect_ratio", .str d.aspect_ratio),
             (cp "duration_seconds", .num d.duration_seconds),
             (cp "sample_count", .num d.sample_count)], rest) :=
    parseMembers_cons (f + 3) _ _ _ _ _ _ (parseValue_str (f + 2) _ _) h4
  have h2 : parseMembers (f + 5)
      (jsonStr (cp "prompt") ++ 58 :: (jsonStr d.prompt ++
        44 :: (jsonStr (cp "aspect_ratio") ++ 58 :: (jsonStr d.aspect_ratio ++
          44 :: (jsonStr (cp "duration_seconds") ++ 58 :: (printInt d.duration_seconds ++
            44 :: (jsonStr (cp "sample_count") ++ 58 :: (printInt d.sample_count ++
              125 :: rest)))))))) =
      some ([(cp "prompt", .str d.prompt),
             (cp "aspect_ratio", .str d.aspect_ratio),
             (cp "duration_seconds", .num d.duration_seconds),
             (cp "sample_count", .num d.sample_count)], rest) :=
    parseMembers_cons (f + 4) _ _ _ _ _ _ (parseValue_str (f + 3) _ _) h3
  have h1 : parseMembers (f + 6)
      (jsonStr (cp "generation_model") ++ 58 :: (jsonStr d.generation_model ++
        44 :: (jsonStr (cp "prompt") ++ 58 :: (jsonStr d.prompt ++
          44 :: (jsonStr (cp "aspect_ratio") ++ 58 :: (jsonStr d.aspect_ratio ++
            44 :: (jsonStr (cp "duration_seconds") ++ 58 :: (printInt d.duration_seconds ++
              44 :: (jsonStr (cp "sample_count") ++ 58 :: (printInt d.sample_count ++
                125 :: rest)))))))))) =
      some ([(cp "generation_model", .str d.generation_model),
             (cp "prompt", .str d.prompt),
             (cp "aspect_ratio", .str d.aspect_ratio),
             (cp "duration_seconds", .num d.duration_seconds),
             (cp "sample_count", .num d.sample_count)], rest) :=
    parseMembers_cons (f + 5) _ _ _ _ _ _ (parseValue_str (f + 4) _ _) h2
  have hshape : dumpCreateVeoDto d ++ rest =
      123 :: (jsonStr (cp "generation_model") ++ 58 :: (jsonStr d.generation_model ++
        44 :: (jsonStr (cp "prompt") ++ 58 :: (jsonStr d.prompt ++
          44 :: (jsonStr (cp "aspect_ratio") ++ 58 :: (jsonStr d.aspect_ratio ++
            44 :: (jsonStr (cp "duration_seconds") ++ 58 :: (printInt d.duration_seconds ++
              44 :: (jsonStr (cp "sample_count") ++ 58 :: (printInt d.sample_count ++
                125 :: rest)))))))))) := by
    simp [dumpCreateVeoDto, List.append_assoc]
  rw [hshape]
  exact parseValue_obj (f + 6) _ _ _ _ h1

theorem parseValue_dumpEnvelope (f : Nat) (e : SubmitRemoteVeoJobDto) (rest : List Nat) :
    parseValue (f + 10) (dumpEnvelope e ++ rest) = some (astEnvelope e, rest) := by
  have hm2 : parseMembers (f + 8)
      (jsonStr (cp "request_dto") ++ 58 :: (dumpCreateVeoDto e.request_dto ++
        125 :: rest)) =
      some ([(cp "request_dto", astCreateVeoDto e.request_dto)], rest) :=
    parseMembers_last (f + 7) _ _ _ _ (parseValue_dumpCreateVeoDto f _ _)
  have hm1 : parseMembers (f + 9)
      (jsonStr (cp "media_item_id") ++ 58 :: (jsonStr e.media_item_id ++
        44 :: (jsonStr (cp "request_dto") ++ 58 :: (dumpCreateVeoDto e.request_dto ++
          125 :: rest)))) =
      some ([(cp "media_item_id", .str e.media_item_id),
             (cp "request_dto", astCreateVeoDto e.request_dto)], rest) :=
    parseMembers_cons (f + 8) _ _ _ _ _ _ (parseValue_str (f + 7) _ _) hm2
  have hshape : dumpEnvelope e ++ rest =
      123 :: (jsonStr (cp "media_item_id") ++ 58 :: (jsonStr e.media_item_id ++
        44 :: (jsonStr (cp "request_dto") ++ 58 :: (dumpCreateVeoDto e.request_dto ++
          125 :: rest)))) := by
    simp [dumpEnvelope, List.append_assoc]
  rw [hshape]
  exact parseValue_obj (f + 9) _ _ _ _ hm1

theorem dumpEnvelope_length (e : SubmitRemoteVeoJobDto) :
    9 ≤ (dumpEnvelope e).length := by
  have hk : (jsonStr (cp "media_item_id")).length = 15 := rfl
  rw [dumpEnvelope]
  simp only [List.length_append, List.length_cons, List.length_nil, hk]
  omega

theorem jsonLoads_dumpEnvelope (e : SubmitRemoteVeoJobDto) :
    jsonLoads (dumpEnvelope e) = .ok (astEnvelope e) := by
  unfold jsonLoads
  obtain ⟨m, hm⟩ : ∃ m, (dumpEnvelope e).length + 1 = m + 10 :=
    ⟨(dumpEnvelope e).length - 9, by have := dumpEnvelope_length e; omega⟩
  rw [hm, ← List.append_nil (dumpEnvelope e), parseValue_dumpEnvelope m e []]
  rfl

theorem validateEnvelope_ast (e : SubmitRemoteVeoJobDto) :
    validateEnvelope (astEnvelope e) = .ok e := rfl

/-! ## Lemmas: encodability of the dumped envelope -/

theorem validStr_append (a b : List Nat) (ha : ValidStr a) (hb : ValidStr b) :
    ValidStr (a ++ b) :=
  fun c hc => (List.mem_append.mp hc).elim (ha c) (hb c)

theorem validStr_cons (c : Nat) (a : List Nat) (hc : ValidCp c) (ha : ValidStr a) :
    ValidStr (c :: a) :=
  fun x hx => (List.mem_cons.mp hx).elim (fun hxe => hxe ▸ hc) (ha x)

theorem validStr_jsonEscape (s : List Nat) (h : ValidStr s) :
    ValidStr (jsonEscape s) := by
  intro c hc
  simp only [jsonEscape, List.mem_flatMap] at hc
  obtain ⟨x, hx, hcx⟩ := hc
  have hxv : ValidCp x := h x hx
  unfold jsonEscapeChar at hcx
  constructor
  all_goals
    split_ifs at hcx <;>
      simp only [List.mem_cons, List.not_mem_nil, or_false] at hcx
  all_goals
    first
    | (rcases hcx with rfl | rfl <;> simp [ValidCp] at hxv ⊢ <;> omega)
    | (rcases hcx with rfl | rfl | rfl | rfl | rfl | rfl <;>
        first
        | omega
        | (unfold hexDigit; split_ifs <;> omega))

theorem validStr_jsonStr (s : List Nat) (h : ValidStr s) : ValidStr (jsonStr s) := by
  rw [jsonStr]
  exact validStr_cons 34 _ (by constructor <;> omega)
    (validStr_append _ _ (validStr_jsonEscape s h)
      (validStr_cons 34 [] (by constructor <;> omega) (fun x hx => absurd hx (List.not_mem_nil x))))

theorem validStr_natDigits (n : Nat) : ValidStr (natDigits n) := by
  intro c hc
  have := natDigits_mem n c hc
  constructor <;> omega

theorem validStr_printInt (n : Int) : ValidStr (printInt n) := by
  unfold printInt
  split_ifs with hneg
  · exact validStr_cons 45 _ (by constructor <;> omega) (validStr_natDigits _)
  · exact validStr_natDigits _

theorem validStr_dumpCreateVeoDto (d : CreateVeoDto)
    (h1 : ValidStr d.generation_model) (h2 : ValidStr d.prompt)
    (h3 : ValidStr d.aspect_ratio) : ValidStr (dumpCreateVeoDto d) := by
  have hsh : dumpCreateVeoDto d =
      123 :: (jsonStr (cp "generation_model") ++ 58 :: (jsonStr d.generation_model ++
        44 :: (jsonStr (cp "prompt") ++ 58 :: (jsonStr d.prompt ++
          44 :: (jsonStr (cp "aspect_ratio") ++ 58 :: (jsonStr d.aspect_ratio ++
            44 :: (jsonStr (cp "duration_seconds") ++ 58 :: (printInt d.duration_seconds ++
              44 :: (jsonStr (cp "sample_count") ++ 58 :: (printInt d.sample_count ++
                [125])))))))))) := by
    simp [dumpCreateVeoDto, List.append_assoc]
  rw [hsh]
  have w : ∀ x : Nat, x < 128 → ValidCp x := fun x hx => ⟨by omega, by omega⟩
  have vnil : ValidStr [] := fun x hx => absurd hx (List.not_mem_nil x)
  exact validStr_cons _ _ (w 123 (by omega))
    (validStr_append _ _ (validStr_jsonStr _ (by decide))
    (validStr_cons _ _ (w 58 (by omega))
    (validStr_append _ _ (validStr_jsonStr _ h1)
    (validStr_cons _ _ (w 44 (by omega))
    (validStr_append _ _ (validStr_jsonStr _ (by decide))
    (validStr_cons _ _ (w 58 (by omega))
    (validStr_append _ _ (validStr_jsonStr _ h2)
    (validStr_cons _ _ (w 44 (by omega))
    (validStr_append _ _ (validStr_jsonStr _ (by decide))
    (validStr_cons _ _ (w 58 (by omega))
    (validStr_append _ _ (validStr_jsonStr _ h3)
    (validStr_cons _ _ (w 44 (by omega))
    (validStr_append _ _ (validStr_jsonStr _ (by decide))
    (validStr_cons _ _ (w 58 (by omega))
    (validStr_append _ _ (validStr_printInt _)
    (validStr_cons _ _ (w 44 (by omega))
    (validStr_append _ _ (validStr_jsonStr _ (by decide))
    (validStr_cons _ _ (w 58 (by omega))
    (validStr_append _ _ (validStr_printInt _)
    (validStr_cons _ _ (w 125 (by omega)) vnil))))))))))))))))))))

theorem validStr_dumpEnvelope (e : SubmitRemoteVeoJobDto)
    (h0 : ValidStr e.media_item_id)
    (h1 : ValidStr e.request_dto.generation_model) (h2 : ValidStr e.request_dto.prompt)
    (h3 : ValidStr e.request_dto.aspect_ratio) : ValidStr (dumpEnvelope e) := by
  have hsh : dumpEnvelope e =
      123 :: (jsonStr (cp "media_item_id") ++ 58 :: (jsonStr e.media_item_id ++
        44 :: (jsonStr (cp "request_dto") ++ 58 :: (dumpCreateVeoDto e.request_dto ++
          [125])))) := by
    simp [dumpEnvelope, List.append_assoc]
  rw [hsh]
  have w : ∀ x : Nat, x < 128 → ValidCp x := fun x hx => ⟨by omega, by omega⟩
  have vnil : ValidStr [] := fun x hx => absurd hx (List.not_mem_nil x)
  exact validStr_cons _ _ (w 123 (by omega))
    (validStr_append _ _ (validStr_jsonStr _ (by decide))
    (validStr_cons _ _ (w 58 (by omega))
    (validStr_append _ _ (validStr_jsonStr _ h0)
    (validStr_cons _ _ (w 44 (by omega))
    (validStr_append _ _ (validStr_jsonStr _ (by decide))
    (validStr_cons _ _ (w 58 (by omega))
    (validStr_append _ _ (validStr_dumpCreateVeoDto _ h1 h2 h3)
    (validStr_cons _ _ (w 125 (by omega)) vnil))))))))

/-- The consumer's decode pipeline inverts the producer's encoding of a
Queued Job Envelope (shared helper for the round-trip and idempotence
results). -/
theorem runStages_producerEncode (e : SubmitRemoteVeoJobDto)
    (h0 : ValidStr e.media_item_id) (h1 : ValidStr e.request_dto.generation_model)
    (h2 : ValidStr e.request_dto.prompt) (h3 : ValidStr e.request_dto.aspect_ratio) :
    runStages (producerEncode e) = .ok e := by
  have hv := validStr_dumpEnvelope e h0 h1 h2 h3
  unfold runStages producerEncode
  rw [b64decodePy_encode _ (utf8Encode_lt_256 _ hv)]
  simp only [bind, Except.bind]
  rw [utf8Decode_encode _ hv]
  simp only []
  rw [jsonLoads_dumpEnvelope]
  simp only []
  exact validateEnvelope_ast e

/-! ## Claims -/

/-- C3: execution-backend selection maps `local` to the worker-pool adapter
and `remote` to the message-queue adapter, but for a configuration value
outside `{local, remote}` `VeoExecutorService.__init__` does NOT raise:
the `dict.get` default silently stores the enum member
`ExecutorTypeEnum.LOCAL_VEO_EXECUTOR_TYPE` itself as the executor.  This
theorem evaluates the selection at the failing input `"invalid"` (and
records the two mapped cases), exhibiting the silent fallback the spec
itself flags as a defect. -/
theorem c3_executor_selection_falls_back_silently :
    veoExecutorServiceInit (cp "invalid") (cp "proj") (cp "topic") =
        .enumMemberFallback ∧
      veoExecutorServiceInit (cp "local") (cp "proj") (cp "topic") = .pool ∧
      veoExecutorServiceInit (cp "remote") (cp "proj") (cp "topic") =
        .remoteExecutor (cp "proj") (cp "topic") := by
  refine ⟨?_, ?_, ?_⟩ <;> decide

/-- C4 (counterexample): with the Pub/Sub publish failing with `NotFound`
(topic missing), `RemoteVeoExecutor.submit` returns normally (`None`), so
the failure is NOT reported to the caller, contradicting the claim. -/
theorem c4_counterexample :
    remoteVeoExecutorSubmit ⟨.ok (), .error .notFound⟩ (cp "m1")
      ⟨cp "veo-2.0", cp "a cat", cp "16:9", 8, 1⟩ = .ok () := by
  decide

/-- C4 (amended): every publish failure, and every `GoogleAPICallError`
during client initialization, is caught and swallowed inside
`_publish_pydantic_model_to_pubsub`, which returns `None`; `submit`
discards that result and returns normally, reporting nothing to its
caller — and since `RemoteVeoExecutor` never touches the record store,
the already-created PENDING record remains PENDING. -/
theorem c4_publish_failure_swallowed (e : PyExc) (m : List Nat) (d : CreateVeoDto) :
    remoteVeoExecutorSubmit ⟨.ok (), .error e⟩ m d = .ok () ∧
      publishPydanticModelToPubsub ⟨.ok (), .error e⟩ ⟨m, d⟩ = .ok none ∧
      remoteVeoExecutorSubmit ⟨.error .googleAPICallError, .ok (cp "id")⟩ m d = .ok () ∧
      publishPydanticModelToPubsub ⟨.error .googleAPICallError, .ok (cp "id")⟩ ⟨m, d⟩ =
        .ok none := by
  refine ⟨rfl, rfl, rfl, rfl⟩

/-- C1 (counterexample): the payload `"a"` is not valid base64, so
`base64.b64decode` raises `binascii.Error`, which none of the `except`
clauses catches: the entrypoint raises instead of returning normally, and
the message is redelivered — contradicting the claim that every
non-base64 payload is permanently rejected. -/
theorem c1_counterexample :
    remoteVeoEntrypoint (procFlag (fun _ _ => .ok ())) false (some (cp "a")) =
      (false, .raised .binasciiError) := by
  decide

/-- C1 (amended): the entrypoint permanently rejects (returns normally,
acknowledging, without invoking the generation routine) an absent or empty
payload and the payloads on which the decode pipeline raises
`json.JSONDecodeError`, `UnicodeDecodeError` (non-UTF-8 or non-JSON data)
or `pydantic` `ValidationError` (schema-invalid data); every other
exception of the pipeline — including the `binascii.Error` raised on
non-base64 payloads, which the claim wrongly lists among the permanently
rejected classes — propagates uncaught, so the message is not acknowledged
and is redelivered. -/
theorem c1_entrypoint_failure_routing
    (f : List Nat → CreateVeoDto → Except PyExc Unit) :
    (remoteVeoEntrypoint (procFlag f) false none =
        (false, .ack (cp "No message data received") 400)) ∧
    (remoteVeoEntrypoint (procFlag f) false (some []) =
        (false, .ack (cp "No message data received") 400)) ∧
    (∀ s : List Nat, s ≠ [] →
      (runStages s = .error .jsonDecodeError ∨ runStages s = .error .unicodeDecodeError) →
      remoteVeoEntrypoint (procFlag f) false (some s) =
        (false, .ack (cp "Message is not valid JSON or UTF-8") 200)) ∧
    (∀ s : List Nat, s ≠ [] → runStages s = .error .validationError →
      remoteVeoEntrypoint (procFlag f) false (some s) =
        (false, .ack (cp "Data validation failed") 200)) ∧
    (∀ s : List Nat, ∀ e : PyExc, s ≠ [] → runStages s = .error e →
      e ≠ .jsonDecodeError → e ≠ .unicodeDecodeError → e ≠ .validationError →
      remoteVeoEntrypoint (procFlag f) false (some s) = (false, .raised e)) := by
  refine ⟨rfl, rfl, ?_, ?_, ?_⟩
  · intro s hne hcase
    unfold remoteVeoEntrypoint
    dsimp only
    rw [if_neg hne]
    rcases hcase with h | h <;> rw [h]
  · intro s hne hval
    unfold remoteVeoEntrypoint
    dsimp only
    rw [if_neg hne, hval]
  · intro s e hne hrun h1 h2 h3
    unfold remoteVeoEntrypoint
    dsimp only
    rw [if_neg hne, hrun]
    cases e <;> first | rfl | (exact absurd rfl (by assumption))

/-- C1 (witness): each rejection class exercised at a concrete payload:
no payload; `"####"` (base64-decodes to the empty byte string, which is
not JSON); `"e30="` (decodes to `"{}"`, JSON but schema-invalid); and the
non-base64 `"a"` whose `binascii.Error` propagates. -/
theorem c1_entrypoint_failure_routing_witness :
    remoteVeoEntrypoint (procFlag (fun _ _ => .ok ())) false none =
        (false, .ack (cp "No message data received") 400) ∧
      remoteVeoEntrypoint (procFlag (fun _ _ => .ok ())) false (some (cp "####")) =
        (false, .ack (cp "Message is not valid JSON or UTF-8") 200) ∧
      remoteVeoEntrypoint (procFlag (fun _ _ => .ok ())) false (some (cp "e30=")) =
        (false, .ack (cp "Data validation failed") 200) ∧
      remoteVeoEntrypoint (procFlag (fun _ _ => .ok ())) false (some (cp "a")) =
        (false, .raised .binasciiError) := by
  refine ⟨(c1_entrypoint_failure_routing _).1,
    (c1_entrypoint_failure_routing _).2.2.1 (cp "####") (by decide) (.inl (by decide)),
    (c1_entrypoint_failure_routing _).2.2.2.1 (cp "e30=") (by decide) (by decide),
    (c1_entrypoint_failure_routing _).2.2.2.2 (cp "a") .binasciiError (by decide)
      (by decide) (by decide) (by decide) (by decide)⟩

theorem b64encode_ne_nil (bs : List Nat) (h : bs ≠ []) : b64encode bs ≠ [] := by
  match bs with
  | [] => exact absurd rfl h
  | [a] => simp [b64encode]
  | [a, b] => simp [b64encode]
  | a :: b :: c :: rest => simp [b64encode]

theorem utf8Encode_ne_nil (s : List Nat) (h : s ≠ []) : utf8Encode s ≠ [] := by
  match s with
  | [] => exact absurd rfl h
  | c :: tl =>
    simp only [utf8Encode, List.flatMap_cons]
    intro hc
    exact utf8EncodeChar_ne_nil c (List.append_eq_nil.mp hc).1

theorem dumpEnvelope_ne_nil (e : SubmitRemoteVeoJobDto) : dumpEnvelope e ≠ [] := by
  have hl := dumpEnvelope_length e
  intro hc
  rw [hc] at hl
  simp at hl

theorem producerEncode_ne_nil (e : SubmitRemoteVeoJobDto) : producerEncode e ≠ [] :=
  b64encode_ne_nil _ (utf8Encode_ne_nil _ (dumpEnvelope_ne_nil e))

/-- C10: on a well-formed message the entrypoint invokes
`_process_video_in_background` (the instrumented flag is `true` in both
outcomes) and acknowledges (returns its success result) only when that
routine returned; if the routine raises, the exception propagates out of
the entrypoint — the `try/except` block ends before the processing call —
so the message is not acknowledged and is redelivered. -/
theorem c10_ack_only_after_processing
    (f : List Nat → CreateVeoDto → Except PyExc Unit) (e : SubmitRemoteVeoJobDto)
    (h0 : ValidStr e.media_item_id) (h1 : ValidStr e.request_dto.generation_model)
    (h2 : ValidStr e.request_dto.prompt) (h3 : ValidStr e.request_dto.aspect_ratio) :
    (f e.media_item_id e.request_dto = .ok () →
      remoteVeoEntrypoint (procFlag f) false (some (producerEncode e)) =
        (true, .ack (cp "Successfully processed message") 200)) ∧
    (∀ err : PyExc, f e.media_item_id e.request_dto = .error err →
      remoteVeoEntrypoint (procFlag f) false (some (producerEncode e)) =
        (true, .raised err)) := by
  have hrt := runStages_producerEncode e h0 h1 h2 h3
  constructor
  · intro hok
    unfold remoteVeoEntrypoint
    dsimp only
    rw [if_neg (producerEncode_ne_nil e), hrt]
    dsimp only
    unfold procFlag
    rw [hok]
  · intro err herr
    unfold remoteVeoEntrypoint
    dsimp only
    rw [if_neg (producerEncode_ne_nil e), hrt]
    dsimp only
    unfold procFlag
    rw [herr]

/-- C10 (witness): a concrete well-formed envelope, processed once with a
succeeding routine and once with one that raises. -/
theorem c10_ack_only_after_processing_witness :
    remoteVeoEntrypoint
        (procFlag (fun _ _ => .ok ())) false
        (some (producerEncode ⟨cp "abc123", ⟨cp "veo-2.0", cp "a cat", cp "16:9", 8, 1⟩⟩)) =
      (true, .ack (cp "Successfully processed message") 200) ∧
    remoteVeoEntrypoint
        (procFlag (fun _ _ => .error (.generic (cp "boom")))) false
        (some (producerEncode ⟨cp "abc123", ⟨cp "veo-2.0", cp "a cat", cp "16:9", 8, 1⟩⟩)) =
      (true, .raised (.generic (cp "boom"))) :=
  ⟨(c10_ack_only_after_processing _ _ (by decide) (by decide) (by decide) (by decide)).1
      rfl,
    (c10_ack_only_after_processing _ _ (by decide) (by decide) (by decide) (by decide)).2
      (.generic (cp "boom")) rfl⟩

/-- C2: delivering the Queued Job Envelope of a record that is already in
a terminal state (COMPLETED or FAILED) leaves the store unchanged and
returns the success acknowledgement without raising: the completion
handler checks the record's current status and discards the duplicate
completion, so a record never moves out of a terminal state. -/
theorem c2_duplicate_delivery_terminal_noop
    (e : SubmitRemoteVeoJobDto) (st : Store)
    (gen : Except PyExc (List (List Nat))) (r : MediaItemModel)
    (h0 : ValidStr e.media_item_id) (h1 : ValidStr e.request_dto.generation_model)
    (h2 : ValidStr e.request_dto.prompt) (h3 : ValidStr e.request_dto.aspect_ratio)
    (hrec : st e.media_item_id = some r)
    (hterm : r.status = .completed ∨ r.status = .failed) :
    remoteVeoEntrypoint (processVideoInBackground gen) st (some (producerEncode e)) =
      (st, .ack (cp "Successfully processed message") 200) := by
  have hrt := runStages_producerEncode e h0 h1 h2 h3
  unfold remoteVeoEntrypoint
  dsimp only
  rw [if_neg (producerEncode_ne_nil e), hrt]
  dsimp only
  unfold processVideoInBackground
  rw [hrec]
  dsimp only
  rw [if_pos hterm]

/-- C2 (witness): a store holding one COMPLETED record, receiving its own
envelope a second time. -/
theorem c2_duplicate_delivery_terminal_noop_witness :
    remoteVeoEntrypoint
        (processVideoInBackground (.ok [cp "gs://other"]))
        (fun k => if k = cp "abc123"
          then some { id := cp "abc123", status := .completed,
                      gcs_uris := [cp "gs://a/b.mp4"] }
          else none)
        (some (producerEncode ⟨cp "abc123", ⟨cp "veo-2.0", cp "a cat", cp "16:9", 8, 1⟩⟩)) =
      ((fun k => if k = cp "abc123"
          then some { id := cp "abc123", status := .completed,
                      gcs_uris := [cp "gs://a/b.mp4"] }
          else none),
        .ack (cp "Successfully processed message") 200) :=
  c2_duplicate_delivery_terminal_noop _ _ _
    { id := cp "abc123", status := .completed, gcs_uris := [cp "gs://a/b.mp4"] }
    (by decide) (by decide) (by decide) (by decide) (by decide) (.inl rfl)

/-- C5: a Queued Job Envelope serialized by the producer
(`model_dump_json`, UTF-8 encoding, base64 wrapping by the queue) and
decoded, parsed and validated by the consumer reproduces the original
`media_item_id` and every field of the request exactly. -/
theorem c5_envelope_roundtrip (e : SubmitRemoteVeoJobDto)
    (h0 : ValidStr e.media_item_id) (h1 : ValidStr e.request_dto.generation_model)
    (h2 : ValidStr e.request_dto.prompt) (h3 : ValidStr e.request_dto.aspect_ratio) :
    runStages (producerEncode e) = .ok e :=
  runStages_producerEncode e h0 h1 h2 h3

/-- C5 (witness): a concrete envelope whose strings exercise quotes,
escapes, control characters and non-ASCII code points. -/
theorem c5_envelope_roundtrip_witness :
    runStages (producerEncode
        ⟨cp "job-42", ⟨cp "veo-2.0", cp "a \"cat\" – ñandú\n😀", cp "16:9", 8, 2⟩⟩) =
      .ok ⟨cp "job-42", ⟨cp "veo-2.0", cp "a \"cat\" – ñandú\n😀", cp "16:9", 8, 2⟩⟩ :=
  c5_envelope_roundtrip _ (by decide) (by decide) (by decide) (by decide)

theorem batchLoop_eq (startJob : CreateVeoDto → Except PyExc MediaItemModel)
    (reqs : List CreateVeoDto) :
    batchLoop startJob reqs =
      (reqs.filterMap (fun req =>
        match startJob req with | .ok r => some r | .error _ => none),
       reqs.filterMap (fun req =>
        match startJob req with | .ok _ => none | .error e => some (req, e))) := by
  induction reqs with
  | nil => rfl
  | cons q tl ih =>
    rw [batchLoop, ih, List.filterMap_cons, List.filterMap_cons]
    cases hq : startJob q <;> rfl

/-- C6 (counterexample): a batch of three requests where the second fails:
the caller does not receive the two successful records together with a
failure entry — the endpoint raises HTTP 500 whose detail names only the
exception's type and message, and no record list is returned. -/
theorem c6_counterexample :
    generateVideosBatch
        (fun req => if req.prompt = cp "p2"
          then .error (.generic (cp "boom"))
          else .ok { id := req.prompt, status := .pending })
        [⟨cp "veo-2.0", cp "p1", cp "16:9", 8, 1⟩,
         ⟨cp "veo-2.0", cp "p2", cp "16:9", 8, 1⟩,
         ⟨cp "veo-2.0", cp "p3", cp "16:9", 8, 1⟩] =
      .error (.httpException 500 (batchErrorMessage 3
        [(⟨cp "veo-2.0", cp "p2", cp "16:9", 8, 1⟩, .generic (cp "boom"))])) ∧
    ∀ l : List MediaItemModel,
      generateVideosBatch
        (fun req => if req.prompt = cp "p2"
          then .error (.generic (cp "boom"))
          else .ok { id := req.prompt, status := .pending })
        [⟨cp "veo-2.0", cp "p1", cp "16:9", 8, 1⟩,
         ⟨cp "veo-2.0", cp "p2", cp "16:9", 8, 1⟩,
         ⟨cp "veo-2.0", cp "p3", cp "16:9", 8, 1⟩] ≠ .ok l := by
  constructor
  · decide
  · intro l hl
    rw [show generateVideosBatch
        (fun req => if req.prompt = cp "p2"
          then .error (.generic (cp "boom"))
          else .ok { id := req.prompt, status := .pending })
        [⟨cp "veo-2.0", cp "p1", cp "16:9", 8, 1⟩,
         ⟨cp "veo-2.0", cp "p2", cp "16:9", 8, 1⟩,
         ⟨cp "veo-2.0", cp "p3", cp "16:9", 8, 1⟩] =
      .error (.httpException 500 (batchErrorMessage 3
        [(⟨cp "veo-2.0", cp "p2", cp "16:9", 8, 1⟩, .generic (cp "boom"))]))
      from by decide] at hl
    exact Except.noConfusion hl

/-- C6 (amended): `generate_videos_batch` attempts every request
independently — the loop's successes and failures are exactly the
per-item outcomes over the whole list, so one item's failure does not
prevent the others' jobs from being submitted, and nothing is rolled
back — but when at least one item fails the caller receives an HTTP 500
whose detail aggregates the failures' exception types and messages
(without the originating requests), and the successful records are not
returned; only an all-success batch returns the records. -/
theorem c6_batch_partial_failure
    (startJob : CreateVeoDto → Except PyExc MediaItemModel)
    (requests : List CreateVeoDto) :
    ((batchLoop startJob requests).1 = requests.filterMap (fun req =>
        match startJob req with | .ok r => some r | .error _ => none)) ∧
    ((batchLoop startJob requests).2 = requests.filterMap (fun req =>
        match startJob req with | .ok _ => none | .error e => some (req, e))) ∧
    ((batchLoop startJob requests).2 = [] →
      generateVideosBatch startJob requests = .ok (batchLoop startJob requests).1) ∧
    ((batchLoop startJob requests).2 ≠ [] →
      generateVideosBatch startJob requests =
        .error (.httpException 500
          (batchErrorMessage requests.length (batchLoop startJob requests).2))) := by
  refine ⟨by rw [batchLoop_eq], by rw [batchLoop_eq], ?_, ?_⟩
  · intro h
    unfold generateVideosBatch
    rcases hbl : batchLoop startJob requests with ⟨s, ft⟩
    rw [hbl] at h
    dsimp only at h ⊢
    rw [if_pos h]
    rfl
  · intro h
    unfold generateVideosBatch
    rcases hbl : batchLoop startJob requests with ⟨s, ft⟩
    rw [hbl] at h
    dsimp only at h ⊢
    rw [if_neg h]
    rfl

/-- C6 (witness): the two dispositions at concrete batches — an
all-success batch of two requests, and the three-request batch whose
second item fails. -/
theorem c6_batch_partial_failure_witness :
    generateVideosBatch (fun req => .ok { id := req.prompt, status := .pending })
        [⟨cp "veo-2.0", cp "q1", cp "16:9", 8, 1⟩,
         ⟨cp "veo-2.0", cp "q2", cp "16:9", 8, 1⟩] =
      .ok [{ id := cp "q1", status := .pending }, { id := cp "q2", status := .pending }] ∧
    generateVideosBatch
        (fun req => if req.prompt = cp "p2"
          then .error (.generic (cp "enhancement failed"))
          else .ok { id := req.prompt, status := .pending })
        [⟨cp "veo-2.0", cp "p1", cp "16:9", 8, 1⟩,
         ⟨cp "veo-2.0", cp "p2", cp "16:9", 8, 1⟩,
         ⟨cp "veo-2.0", cp "p3", cp "16:9", 8, 1⟩] =
      .error (.httpException 500 (batchErrorMessage 3
        [(⟨cp "veo-2.0", cp "p2", cp "16:9", 8, 1⟩, .generic (cp "enhancement failed"))])) := by
  constructor
  · have h := (c6_batch_partial_failure
      (fun req => .ok { id := req.prompt, status := .pending })
      [⟨cp "veo-2.0", cp "q1", cp "16:9", 8, 1⟩,
       ⟨cp "veo-2.0", cp "q2", cp "16:9", 8, 1⟩]).2.2.1 (by decide)
    rw [h]
    decide
  · have h := (c6_batch_partial_failure
      (fun req => if req.prompt = cp "p2"
        then .error (.generic (cp "enhancement failed"))
        else .ok { id := req.prompt, status := .pending })
      [⟨cp "veo-2.0", cp "p1", cp "16:9", 8, 1⟩,
       ⟨cp "veo-2.0", cp "p2", cp "16:9", 8, 1⟩,
       ⟨cp "veo-2.0", cp "p3", cp "16:9", 8, 1⟩]).2.2.2 (by decide)
    rw [h]
    decide

/-- C7: for every valid submission (enhancement succeeds, the backend's
`submit` succeeds, and the store-generated id is non-empty), the dispatch
operation persists and returns a record with status PENDING, the fresh
non-empty id, no result URIs and no error detail — before any generation
result exists — and the controller (`generate_videos`) passes that record
through to the caller. -/
theorem c7_submit_returns_pending
    (submit : List Nat → CreateVeoDto → Except PyExc Unit)
    (enhance : Except PyExc (List Nat)) (freshId userEmail : List Nat)
    (dto : CreateVeoDto) (st : Store) (enhancedPrompt : List Nat)
    (henh : enhance = .ok enhancedPrompt) (hsub : submit freshId dto = .ok ())
    (hid : freshId ≠ []) :
    ∃ record : MediaItemModel,
      startVideoGenerationJob submit enhance freshId userEmail dto st =
        (st.write freshId record, .ok record) ∧
      (generateVideos (startVideoGenerationJob submit enhance freshId userEmail dto) st).2 =
        .ok record ∧
      record.status = .pending ∧ record.id = freshId ∧ record.id ≠ [] ∧
      record.gcs_uris = [] ∧ record.error_message = none := by
  have hrun : startVideoGenerationJob submit enhance freshId userEmail dto st =
      (st.write freshId
        { id := freshId, user_email := userEmail, model := dto.generation_model,
          prompt := enhancedPrompt, original_prompt := dto.prompt,
          aspect_ratio := dto.aspect_ratio, gcs_uris := [],
          status := .pending, error_message := none },
       .ok { id := freshId, user_email := userEmail, model := dto.generation_model,
             prompt := enhancedPrompt, original_prompt := dto.prompt,
             aspect_ratio := dto.aspect_ratio, gcs_uris := [],
             status := .pending, error_message := none }) := by
    unfold startVideoGenerationJob
    rw [henh]
    dsimp only
    rw [hsub]
  refine ⟨_, hrun, ?_, rfl, rfl, hid, rfl, rfl⟩
  unfold generateVideos
  rw [hrun]
  rfl

/-- C7 (witness): a concrete valid submission against the empty store. -/
theorem c7_submit_returns_pending_witness :
    ∃ record : MediaItemModel,
      startVideoGenerationJob (fun _ _ => .ok ()) (.ok (cp "an enhanced cat"))
          (cp "fresh-id-1") (cp "u@example.com")
          ⟨cp "veo-2.0", cp "a cat", cp "16:9", 8, 1⟩ (fun _ => none) =
        (Store.write (fun _ => none) (cp "fresh-id-1") record, .ok record) ∧
      (generateVideos
          (startVideoGenerationJob (fun _ _ => .ok ()) (.ok (cp "an enhanced cat"))
            (cp "fresh-id-1") (cp "u@example.com")
            ⟨cp "veo-2.0", cp "a cat", cp "16:9", 8, 1⟩) (fun _ => none)).2 =
        .ok record ∧
      record.status = .pending ∧ record.id = cp "fresh-id-1" ∧ record.id ≠ [] ∧
      record.gcs_uris = [] ∧ record.error_message = none :=
  c7_submit_returns_pending _ _ _ _ _ _ _ rfl rfl (by decide)

/-- C8 (counterexample): with upscaling requested and the upscale call
returning an image without a storage URI, `generate_images` saves a
record with status COMPLETED and empty result locations, violating the
claimed invariant "result locations are non-empty iff status is
COMPLETED". -/
theorem c8_counterexample :
    ((generateImages (.ok (cp "enhanced prompt"))
        (.ok [⟨some ⟨cp "gs://a/raw.png", cp "image/png"⟩⟩])
        (fun _ => .ok (some ⟨some ⟨[], cp "image/png"⟩⟩))
        (fun u => u) 7
        ⟨cp "a cat", cp "imagen-3", cp "1:1", some (cp "x2"),
         cp "", cp "", cp "", cp "", cp "", false⟩
        (cp "user@example.com")).saved.map
      (fun r => (r.status, r.gcs_uris))) = some (.completed, []) := by
  decide

/-- C8 (amended): when upscaling is not requested, every record
`generate_images` saves satisfies the invariant: its result locations are
non-empty iff its status is COMPLETED (it is always COMPLETED with at
least one URI), and its error detail is non-empty iff its status is
FAILED (it is never FAILED and the error detail is never set).  With
upscaling requested the invariant can be violated (see the
counterexample). -/
theorem c8_completed_iff_uris_without_upscale
    (enhance : Except PyExc (List Nat))
    (gen : Except PyExc (List GeneratedImage))
    (upscale : UpscaleImagenDto → Except PyExc (Option GeneratedImage))
    (presign : List Nat → List Nat) (generationTime : Int)
    (dto : CreateImagenDto) (userEmail : List Nat)
    (hup : dto.upscale_factor = none) :
    ∀ r : MediaItemModel,
      (generateImages enhance gen upscale presign generationTime dto userEmail).saved =
        some r →
      (r.gcs_uris ≠ [] ↔ r.status = .completed) ∧
      (r.error_message ≠ none ↔ r.status = .failed) ∧
      r.status = .completed := by
  intro r hr
  unfold generateImages at hr
  cases enhance with
  | error e => exact absurd hr (by simp)
  | ok rp =>
    try dsimp only at hr
    cases gen with
    | error e => exact absurd hr (by simp)
    | ok imgs =>
      try dsimp only at hr
      by_cases hnil : imgs = []
      · rw [if_pos hnil] at hr
        exact absurd hr (by simp)
      · rw [if_neg hnil] at hr
        try dsimp only at hr
        cases hv : imgs.filter imgValid with
        | nil =>
          rw [hv] at hr
          exact absurd hr (by simp)
        | cons v0 vrest =>
          rw [hv] at hr
          try dsimp only at hr
          rw [hup] at hr
          try dsimp only at hr
          have hv0 : imgValid v0 = true :=
            (List.mem_filter.mp (hv ▸ List.mem_cons_self v0 vrest)).2
          obtain ⟨ref, href⟩ : ∃ ref, v0.image = some ref := by
            unfold imgValid at hv0
            cases hi : v0.image with
            | none => rw [hi] at hv0; cases hv0
            | some ref => exact ⟨ref, rfl⟩
          have huri : ref.gcs_uri ≠ [] := by
            unfold imgValid at hv0
            rw [href] at hv0
            simpa using hv0
          rw [List.filterMap_cons, href] at hr
          dsimp only at hr
          rw [if_pos huri] at hr
          rcases Option.some.inj hr with rfl
          refine ⟨?_, ?_, rfl⟩
          · simp
          · simp

/-- C8 (witness): a concrete non-upscaling run saving a COMPLETED record
with one URI. -/
theorem c8_completed_iff_uris_without_upscale_witness :
    ∃ r : MediaItemModel,
      (generateImages (.ok (cp "enhanced prompt"))
          (.ok [⟨some ⟨cp "gs://a/raw.png", cp "image/png"⟩⟩])
          (fun _ => .ok none) (fun u => u) 7
          ⟨cp "a cat", cp "imagen-3", cp "1:1", none,
           cp "", cp "", cp "", cp "", cp "", false⟩
          (cp "user@example.com")).saved = some r ∧
      (r.gcs_uris ≠ [] ↔ r.status = .completed) ∧
      (r.error_message ≠ none ↔ r.status = .failed) ∧
      r.status = .completed := by
  have h := c8_completed_iff_uris_without_upscale (.ok (cp "enhanced prompt"))
    (.ok [⟨some ⟨cp "gs://a/raw.png", cp "image/png"⟩⟩])
    (fun _ => .ok none) (fun u => u) 7
    ⟨cp "a cat", cp "imagen-3", cp "1:1", none,
     cp "", cp "", cp "", cp "", cp "", false⟩
    (cp "user@example.com") rfl
  exact ⟨_, rfl, h _ rfl⟩

/-- C9 (counterexample): `generate_images` assigns the rewritten prompt to
`request_dto.prompt` (line 86), so the request object's prompt after the
call differs from the prompt it was created with — the request is
mutated, contradicting the claim. -/
theorem c9_counterexample :
    (generateImages (.ok (cp "a majestic cat")) (.ok []) (fun _ => .ok none)
        (fun u => u) 7
        ⟨cp "a cat", cp "imagen-3", cp "1:1", none,
         cp "", cp "", cp "", cp "", cp "", false⟩
        (cp "u@example.com")).finalDto.prompt ≠ cp "a cat" := by
  decide

/-- C9 (amended): whenever enhancement succeeds, `generate_images`
mutates exactly the `prompt` field of the request it received — the
request object after the call equals the original with its prompt
replaced by the rewritten prompt, every other field unchanged (and when
enhancement raises, the request is returned unmutated). -/
theorem c9_request_mutated_only_in_prompt
    (enhance : Except PyExc (List Nat))
    (gen : Except PyExc (List GeneratedImage))
    (upscale : UpscaleImagenDto → Except PyExc (Option GeneratedImage))
    (presign : List Nat → List Nat) (generationTime : Int)
    (dto : CreateImagenDto) (userEmail : List Nat) (rp : List Nat)
    (h : enhance = .ok rp) :
    (generateImages enhance gen upscale presign generationTime dto userEmail).finalDto =
      { dto with prompt := rp } := by
  subst h
  unfold generateImages
  try dsimp only
  cases gen with
  | error e => rfl
  | ok imgs =>
    try dsimp only
    by_cases hnil : imgs = []
    · rw [if_pos hnil]
    · rw [if_neg hnil]
      try dsimp only
      cases hflt : imgs.filter imgValid with
      | nil => rfl
      | cons v0 vrest =>
        try dsimp only
        cases hup : dto.upscale_factor with
        | none => rfl
        | some factor => split <;> rfl

/-- C9 (witness): a concrete run: the final request equals the original
with only the prompt replaced. -/
theorem c9_request_mutated_only_in_prompt_witness :
    (generateImages (.ok (cp "a majestic cat")) (.ok []) (fun _ => .ok none)
        (fun u => u) 7
        ⟨cp "a cat", cp "imagen-3", cp "1:1", none,
         cp "", cp "", cp "", cp "", cp "", false⟩
        (cp "u@example.com")).finalDto =
      { (⟨cp "a cat", cp "imagen-3", cp "1:1", none,
          cp "", cp "", cp "", cp "", cp "", false⟩ : CreateImagenDto) with
        prompt := cp "a majestic cat" } :=
  c9_request_mutated_only_in_prompt _ _ _ _ _ _ _ _ rfl

end CreativeStudio
